import Mathlib

set_option maxRecDepth 8000
set_option maxHeartbeats 1000000


/-! Basic substring machinery over lists of characters. -/

def isPre : List Char → List Char → Bool
  | [], _ => true
  | _ :: _, [] => false
  | a :: as, b :: bs => a == b && isPre as bs

def hasSub (u : List Char) : List Char → Bool
  | [] => isPre u []
  | c :: l => isPre u (c :: l) || hasSub u l

def countOcc (u : List Char) : List Char → Nat
  | [] => 0
  | c :: l => (if isPre u (c :: l) then 1 else 0) + countOcc u l

/-! ### Literal chunks of the four command templates

The four shell-command templates of `generatedCommand` (src/src/App.tsx,
lines 238-331).  A name with suffix `L` holds a chunk of the template exactly
as it stands between two interpolation points of the source; a name with
suffix `P` holds the same chunk with its boundary quote, slash or space
characters stripped off, which the decomposition lemmas below re-attach
explicitly. -/

def vidL0 : String := "TS_FILE=\"/tmp/yt_dlp_ts_$(date +%s)\" && touch \"$TS_FILE\" && \\\nyt-dlp "

def vidL1 : String := " --merge-output-format mkv --write-subs --write-auto-subs --sub-langs \"en.*,zh-Hans,zh-Hant,zh-Hans-en,zh-Hant-en,zh.*\" --convert-subs srt --embed-subs --embed-thumbnail --embed-metadata --ignore-errors --sleep-subtitles 5 --no-cache-dir "

def vidL3 : String := "\" && \\\necho \"\u011f\u0178\u00b7\u00ef\u00b8 \u00e6\u00ad\u00a3\u00e5\u0153\u00a8\u00e9\u2021\u00e5\u2018\u00bd\u00e5\u00e5\u00b9\u00b6\u00e6\u00e5\u2013\u00e6\u2013\u2021\u00e6\u0153\u00ac\u00e5\u2020\u2026\u00e5\u00ae\u00b9 (\u00e8\u2021\u00aa\u00e5\u0160\u00a8\u00e5\u00bb\u00e9\u2021)...\" && \\\nfound_subs=false; \\\nfor f in \""

def vidL4 : String := "/\"*/*.srt ; do \\\n  [ -f \"$f\" ] || continue; \\\n  [ \"$f\" -nt \"$TS_FILE\" ] || continue; \\\n  found_subs=true; \\\n  [[ \"$f\" == *\"[\u00e5\u0178\u00e5\u00a7\u2039\u00e5\u00ad\u2014\u00e5\u00b9\u2022]\"* ]] || [[ \"$f\" == *\"[\u00e8\u2021\u00aa\u00e5\u0160\u00a8\u00e7\u00bf\u00bb\u00e8\u00af\u2018]\"* ]] || [[ \"$f\" == *\"[\u00e8\u2021\u00aa\u00e5\u0160\u00a8\u00e7\u201d\u0178\u00e6\u02c6]\"* ]] && continue; \\\n  new_name=\"$f\"; \\\n  if [[ \"$f\" == *\"orig\"* ]]; then label=\"\u00e5\u0178\u00e5\u00a7\u2039\u00e5\u00ad\u2014\u00e5\u00b9\u2022\"; \\\n  elif [[ \"$f\" == *\"en-en\"* ]]; then label=\"\u00e8\u2021\u00aa\u00e5\u0160\u00a8\u00e7\u201d\u0178\u00e6\u02c6\"; \\\n  elif [[ \"$f\" == *\"-en\"* ]] || [[ \"$f\" == *\"-zh-\"* ]] || [[ \"$f\" == *\".zh-Hans.\"* ]] || [[ \"$f\" == *\".zh-Hant.\"* ]]; then label=\"\u00e8\u2021\u00aa\u00e5\u0160\u00a8\u00e7\u00bf\u00bb\u00e8\u00af\u2018\"; \\\n  else label=\"\u00e5\u0178\u00e5\u00a7\u2039\u00e5\u00ad\u2014\u00e5\u00b9\u2022\"; fi; \\\n  new_name=\"$\x7bf%.*\x7d.[$label].srt\"; \\\n  [ \"$f\" != \"$new_name\" ] && [ ! -f \"$new_name\" ] && mv \"$f\" \"$new_name\"; \\\n  sed -E 's/<[^>]*>//g; /^[0-9][0-9]:[0-9][0-9]:[0-9][0-9]/d; /^[0-9]+$/d; /^WEBVTT/d; /^Kind:/d; /^Language:/d; /^$/d' \"$new_name\" | uniq > \"$\x7bnew_name%.*\x7d.txt\" ; \\\ndone; \\\nif [ \"$found_subs\" = \"false\" ]; then \\\n  echo \"\u00e2\u0161\u00a0\u00ef\u00b8 \u00e6\u0153\u00aa\u00e5\u2018\u00e7\u00b0\u00e5\u00ad\u2014\u00e5\u00b9\u2022\u00ef\u00bc\u0152\u00e5\u00af\u00e5\u0160\u00a8 Whisper \u00e8\u00af\u00ad\u00e9\u0178\u00b3\u00e8\u00bd\u00ac\u00e6\u2013\u2021\u00e5\u00ad\u2014...\" && \\\n  for f in \""

def vidL5 : String := "/\"*/*.mkv ; do \\\n    [ -f \"$f\" ] || continue; \\\n    [ \"$f\" -nt \"$TS_FILE\" ] || continue; \\\n    whisper \"$f\" --model medium --language Chinese --output_dir \"$\x7bf%/*\x7d\" --output_format srt && \\\n    mv \"$\x7bf%.*\x7d.srt\" \"$\x7bf%.*\x7d.[Whisper].srt\" && \\\n    sed -E 's/<[^>]*>//g; /^[0-9][0-9]:[0-9][0-9]:[0-9][0-9]/d; /^[0-9]+$/d; /^WEBVTT/d; /^Kind:/d; /^Language:/d; /^$/d' \"$\x7bf%.*\x7d.[Whisper].srt\" | uniq > \"$\x7bf%.*\x7d.[Whisper].txt\" ; \\\n  done && \\\n  echo \"\u00e2\u0153\u2026 \u00e8\u00a7\u2020\u00e9\u00a2\u2018\u00e4\u00b8\u2039\u00e8\u00bd\u00bd\u00e4\u00b8 Whisper \u00e8\u00af\u00ad\u00e9\u0178\u00b3\u00e8\u00bd\u00ac\u00e6\u2013\u2021\u00e5\u00ad\u2014\u00e5\u00ae\u0152\u00e6\u02c6\u00ef\u00bc\"; \\\nelse \\\n  echo \"\u00e2\u0153\u2026 \u00e8\u00a7\u2020\u00e9\u00a2\u2018\u00e4\u00b8\u2039\u00e8\u00bd\u00bd\u00e4\u00b8\u00e5\u00ad\u2014\u00e5\u00b9\u2022\u00e5\u00a4\u201e\u00e7\u2020\u00e5\u00ae\u0152\u00e6\u02c6\u00ef\u00bc\"; \\\nfi && rm \"$TS_FILE\""

def vidP0 : String := "TS_FILE=\"/tmp/yt_dlp_ts_$(date +%s)\" && touch \"$TS_FILE\" && \\\nyt-dlp"

def vidP1 : String := "--merge-output-format mkv --write-subs --write-auto-subs --sub-langs \"en.*,zh-Hans,zh-Hant,zh-Hans-en,zh-Hant-en,zh.*\" --convert-subs srt --embed-subs --embed-thumbnail --embed-metadata --ignore-errors --sleep-subtitles 5 --no-cache-dir"

def vidP3 : String := " && \\\necho \"\u011f\u0178\u00b7\u00ef\u00b8 \u00e6\u00ad\u00a3\u00e5\u0153\u00a8\u00e9\u2021\u00e5\u2018\u00bd\u00e5\u00e5\u00b9\u00b6\u00e6\u00e5\u2013\u00e6\u2013\u2021\u00e6\u0153\u00ac\u00e5\u2020\u2026\u00e5\u00ae\u00b9 (\u00e8\u2021\u00aa\u00e5\u0160\u00a8\u00e5\u00bb\u00e9\u2021)...\" && \\\nfound_subs=false; \\\nfor f in "

def vidP4 : String := "\"*/*.srt ; do \\\n  [ -f \"$f\" ] || continue; \\\n  [ \"$f\" -nt \"$TS_FILE\" ] || continue; \\\n  found_subs=true; \\\n  [[ \"$f\" == *\"[\u00e5\u0178\u00e5\u00a7\u2039\u00e5\u00ad\u2014\u00e5\u00b9\u2022]\"* ]] || [[ \"$f\" == *\"[\u00e8\u2021\u00aa\u00e5\u0160\u00a8\u00e7\u00bf\u00bb\u00e8\u00af\u2018]\"* ]] || [[ \"$f\" == *\"[\u00e8\u2021\u00aa\u00e5\u0160\u00a8\u00e7\u201d\u0178\u00e6\u02c6]\"* ]] && continue; \\\n  new_name=\"$f\"; \\\n  if [[ \"$f\" == *\"orig\"* ]]; then label=\"\u00e5\u0178\u00e5\u00a7\u2039\u00e5\u00ad\u2014\u00e5\u00b9\u2022\"; \\\n  elif [[ \"$f\" == *\"en-en\"* ]]; then label=\"\u00e8\u2021\u00aa\u00e5\u0160\u00a8\u00e7\u201d\u0178\u00e6\u02c6\"; \\\n  elif [[ \"$f\" == *\"-en\"* ]] || [[ \"$f\" == *\"-zh-\"* ]] || [[ \"$f\" == *\".zh-Hans.\"* ]] || [[ \"$f\" == *\".zh-Hant.\"* ]]; then label=\"\u00e8\u2021\u00aa\u00e5\u0160\u00a8\u00e7\u00bf\u00bb\u00e8\u00af\u2018\"; \\\n  else label=\"\u00e5\u0178\u00e5\u00a7\u2039\u00e5\u00ad\u2014\u00e5\u00b9\u2022\"; fi; \\\n  new_name=\"$\x7bf%.*\x7d.[$label].srt\"; \\\n  [ \"$f\" != \"$new_name\" ] && [ ! -f \"$new_name\" ] && mv \"$f\" \"$new_name\"; \\\n  sed -E 's/<[^>]*>//g; /^[0-9][0-9]:[0-9][0-9]:[0-9][0-9]/d; /^[0-9]+$/d; /^WEBVTT/d; /^Kind:/d; /^Language:/d; /^$/d' \"$new_name\" | uniq > \"$\x7bnew_name%.*\x7d.txt\" ; \\\ndone; \\\nif [ \"$found_subs\" = \"false\" ]; then \\\n  echo \"\u00e2\u0161\u00a0\u00ef\u00b8 \u00e6\u0153\u00aa\u00e5\u2018\u00e7\u00b0\u00e5\u00ad\u2014\u00e5\u00b9\u2022\u00ef\u00bc\u0152\u00e5\u00af\u00e5\u0160\u00a8 Whisper \u00e8\u00af\u00ad\u00e9\u0178\u00b3\u00e8\u00bd\u00ac\u00e6\u2013\u2021\u00e5\u00ad\u2014...\" && \\\n  for f in "

def vidP5 : String := "\"*/*.mkv ; do \\\n    [ -f \"$f\" ] || continue; \\\n    [ \"$f\" -nt \"$TS_FILE\" ] || continue; \\\n    whisper \"$f\" --model medium --language Chinese --output_dir \"$\x7bf%/*\x7d\" --output_format srt && \\\n    mv \"$\x7bf%.*\x7d.srt\" \"$\x7bf%.*\x7d.[Whisper].srt\" && \\\n    sed -E 's/<[^>]*>//g; /^[0-9][0-9]:[0-9][0-9]:[0-9][0-9]/d; /^[0-9]+$/d; /^WEBVTT/d; /^Kind:/d; /^Language:/d; /^$/d' \"$\x7bf%.*\x7d.[Whisper].srt\" | uniq > \"$\x7bf%.*\x7d.[Whisper].txt\" ; \\\n  done && \\\n  echo \"\u00e2\u0153\u2026 \u00e8\u00a7\u2020\u00e9\u00a2\u2018\u00e4\u00b8\u2039\u00e8\u00bd\u00bd\u00e4\u00b8 Whisper \u00e8\u00af\u00ad\u00e9\u0178\u00b3\u00e8\u00bd\u00ac\u00e6\u2013\u2021\u00e5\u00ad\u2014\u00e5\u00ae\u0152\u00e6\u02c6\u00ef\u00bc\"; \\\nelse \\\n  echo \"\u00e2\u0153\u2026 \u00e8\u00a7\u2020\u00e9\u00a2\u2018\u00e4\u00b8\u2039\u00e8\u00bd\u00bd\u00e4\u00b8\u00e5\u00ad\u2014\u00e5\u00b9\u2022\u00e5\u00a4\u201e\u00e7\u2020\u00e5\u00ae\u0152\u00e6\u02c6\u00ef\u00bc\"; \\\nfi && rm \"$TS_FILE\""

def audL1 : String := " -x --audio-format mp3 --embed-thumbnail --embed-metadata --ignore-errors "

def audP1 : String := "-x --audio-format mp3 --embed-thumbnail --embed-metadata --ignore-errors"

def subL3 : String := "/%(title)s/%(title)s.%(ext)s\" --write-subs --write-auto-subs --sub-langs \"en.*,zh-Hans,zh-Hant,zh-Hans-en,zh-Hant-en,zh.*\" --convert-subs srt --skip-download --ignore-errors --sleep-subtitles 5 --no-cache-dir && \\\necho \"\u011f\u0178\u00b7\u00ef\u00b8 \u00e6\u00ad\u00a3\u00e5\u0153\u00a8\u00e9\u2021\u00e5\u2018\u00bd\u00e5\u00e5\u00b9\u00b6\u00e6\u00e5\u2013\u00e6\u2013\u2021\u00e6\u0153\u00ac\u00e5\u2020\u2026\u00e5\u00ae\u00b9 (\u00e8\u2021\u00aa\u00e5\u0160\u00a8\u00e5\u00bb\u00e9\u2021)...\" && \\\nfound_subs=false; \\\nfor f in \""

def subL4 : String := "/\"*/*.srt ; do \\\n  [ -f \"$f\" ] || continue; \\\n  [ \"$f\" -nt \"$TS_FILE\" ] || continue; \\\n  found_subs=true; \\\n  [[ \"$f\" == *\"[\u00e5\u0178\u00e5\u00a7\u2039\u00e5\u00ad\u2014\u00e5\u00b9\u2022]\"* ]] || [[ \"$f\" == *\"[\u00e8\u2021\u00aa\u00e5\u0160\u00a8\u00e7\u00bf\u00bb\u00e8\u00af\u2018]\"* ]] || [[ \"$f\" == *\"[\u00e8\u2021\u00aa\u00e5\u0160\u00a8\u00e7\u201d\u0178\u00e6\u02c6]\"* ]] && continue; \\\n  new_name=\"$f\"; \\\n  if [[ \"$f\" == *\"orig\"* ]]; then label=\"\u00e5\u0178\u00e5\u00a7\u2039\u00e5\u00ad\u2014\u00e5\u00b9\u2022\"; \\\n  elif [[ \"$f\" == *\"en-en\"* ]]; then label=\"\u00e8\u2021\u00aa\u00e5\u0160\u00a8\u00e7\u201d\u0178\u00e6\u02c6\"; \\\n  elif [[ \"$f\" == *\"-en\"* ]] || [[ \"$f\" == *\"-zh-\"* ]] || [[ \"$f\" == *\".zh-Hans.\"* ]] || [[ \"$f\" == *\".zh-Hant.\"* ]]; then label=\"\u00e8\u2021\u00aa\u00e5\u0160\u00a8\u00e7\u00bf\u00bb\u00e8\u00af\u2018\"; \\\n  else label=\"\u00e5\u0178\u00e5\u00a7\u2039\u00e5\u00ad\u2014\u00e5\u00b9\u2022\"; fi; \\\n  new_name=\"$\x7bf%.*\x7d.[$label].srt\"; \\\n  [ \"$f\" != \"$new_name\" ] && [ ! -f \"$new_name\" ] && mv \"$f\" \"$new_name\"; \\\n  sed -E 's/<[^>]*>//g; /^[0-9][0-9]:[0-9][0-9]:[0-9][0-9]/d; /^[0-9]+$/d; /^WEBVTT/d; /^Kind:/d; /^Language:/d; /^$/d' \"$new_name\" | uniq > \"$\x7bnew_name%.*\x7d.txt\" ; \\\ndone; \\\nif [ \"$found_subs\" = \"false\" ]; then \\\n  echo \"\u00e2\u0161\u00a0\u00ef\u00b8 \u00e6\u0153\u00aa\u00e5\u2018\u00e7\u00b0\u00e5\u00ad\u2014\u00e5\u00b9\u2022\u00ef\u00bc\u0152\u00e5\u00af\u00e5\u0160\u00a8 Whisper \u00e8\u00af\u00ad\u00e9\u0178\u00b3\u00e8\u00bd\u00ac\u00e6\u2013\u2021\u00e5\u00ad\u2014...\" && \\\n  yt-dlp "

def subL5 : String := " -x --audio-format wav -o \""

def subL6 : String := "/%(title)s/%(title)s.%(ext)s\" \""

def subL7 : String := "\" && \\\n  for f in \""

def subL8 : String := "/\"*/*.wav ; do \\\n    [ -f \"$f\" ] || continue; \\\n    [ \"$f\" -nt \"$TS_FILE\" ] || continue; \\\n    whisper \"$f\" --model medium --language Chinese --output_dir \"$\x7bf%/*\x7d\" --output_format srt && \\\n    mv \"$\x7bf%.*\x7d.srt\" \"$\x7bf%.*\x7d.[Whisper].srt\" && \\\n    sed -E 's/<[^>]*>//g; /^[0-9][0-9]:[0-9][0-9]:[0-9][0-9]/d; /^[0-9]+$/d; /^WEBVTT/d; /^Kind:/d; /^Language:/d; /^$/d' \"$\x7bf%.*\x7d.[Whisper].srt\" | uniq > \"$\x7bf%.*\x7d.[Whisper].txt\" ; \\\n  done && \\\n  echo \"\u00e2\u0153\u2026 Whisper \u00e8\u00af\u00ad\u00e9\u0178\u00b3\u00e8\u00bd\u00ac\u00e6\u2013\u2021\u00e5\u00ad\u2014\u00e5\u00ae\u0152\u00e6\u02c6\u00ef\u00bc\"; \\\nelse \\\n  echo \"\u00e2\u0153\u2026 \u00e5\u00ad\u2014\u00e5\u00b9\u2022\u00e9\u2021\u00e5\u2018\u00bd\u00e5\u00e4\u00b8\u00e6\u2013\u2021\u00e6\u0153\u00ac\u00e6\u00e5\u2013\u00e5\u00ae\u0152\u00e6\u02c6\u00ef\u00bc\"; \\\nfi && rm \"$TS_FILE\""

def subP3 : String := "%(title)s/%(title)s.%(ext)s\" --write-subs --write-auto-subs --sub-langs \"en.*,zh-Hans,zh-Hant,zh-Hans-en,zh-Hant-en,zh.*\" --convert-subs srt --skip-download --ignore-errors --sleep-subtitles 5 --no-cache-dir && \\\necho \"\u011f\u0178\u00b7\u00ef\u00b8 \u00e6\u00ad\u00a3\u00e5\u0153\u00a8\u00e9\u2021\u00e5\u2018\u00bd\u00e5\u00e5\u00b9\u00b6\u00e6\u00e5\u2013\u00e6\u2013\u2021\u00e6\u0153\u00ac\u00e5\u2020\u2026\u00e5\u00ae\u00b9 (\u00e8\u2021\u00aa\u00e5\u0160\u00a8\u00e5\u00bb\u00e9\u2021)...\" && \\\nfound_subs=false; \\\nfor f in "

def subP4 : String := "\"*/*.srt ; do \\\n  [ -f \"$f\" ] || continue; \\\n  [ \"$f\" -nt \"$TS_FILE\" ] || continue; \\\n  found_subs=true; \\\n  [[ \"$f\" == *\"[\u00e5\u0178\u00e5\u00a7\u2039\u00e5\u00ad\u2014\u00e5\u00b9\u2022]\"* ]] || [[ \"$f\" == *\"[\u00e8\u2021\u00aa\u00e5\u0160\u00a8\u00e7\u00bf\u00bb\u00e8\u00af\u2018]\"* ]] || [[ \"$f\" == *\"[\u00e8\u2021\u00aa\u00e5\u0160\u00a8\u00e7\u201d\u0178\u00e6\u02c6]\"* ]] && continue; \\\n  new_name=\"$f\"; \\\n  if [[ \"$f\" == *\"orig\"* ]]; then label=\"\u00e5\u0178\u00e5\u00a7\u2039\u00e5\u00ad\u2014\u00e5\u00b9\u2022\"; \\\n  elif [[ \"$f\" == *\"en-en\"* ]]; then label=\"\u00e8\u2021\u00aa\u00e5\u0160\u00a8\u00e7\u201d\u0178\u00e6\u02c6\"; \\\n  elif [[ \"$f\" == *\"-en\"* ]] || [[ \"$f\" == *\"-zh-\"* ]] || [[ \"$f\" == *\".zh-Hans.\"* ]] || [[ \"$f\" == *\".zh-Hant.\"* ]]; then label=\"\u00e8\u2021\u00aa\u00e5\u0160\u00a8\u00e7\u00bf\u00bb\u00e8\u00af\u2018\"; \\\n  else label=\"\u00e5\u0178\u00e5\u00a7\u2039\u00e5\u00ad\u2014\u00e5\u00b9\u2022\"; fi; \\\n  new_name=\"$\x7bf%.*\x7d.[$label].srt\"; \\\n  [ \"$f\" != \"$new_name\" ] && [ ! -f \"$new_name\" ] && mv \"$f\" \"$new_name\"; \\\n  sed -E 's/<[^>]*>//g; /^[0-9][0-9]:[0-9][0-9]:[0-9][0-9]/d; /^[0-9]+$/d; /^WEBVTT/d; /^Kind:/d; /^Language:/d; /^$/d' \"$new_name\" | uniq > \"$\x7bnew_name%.*\x7d.txt\" ; \\\ndone; \\\nif [ \"$found_subs\" = \"false\" ]; then \\\n  echo \"\u00e2\u0161\u00a0\u00ef\u00b8 \u00e6\u0153\u00aa\u00e5\u2018\u00e7\u00b0\u00e5\u00ad\u2014\u00e5\u00b9\u2022\u00ef\u00bc\u0152\u00e5\u00af\u00e5\u0160\u00a8 Whisper \u00e8\u00af\u00ad\u00e9\u0178\u00b3\u00e8\u00bd\u00ac\u00e6\u2013\u2021\u00e5\u00ad\u2014...\" && \\\n  yt-dlp"

def subP5 : String := "-x --audio-format wav -o "

def subP6 : String := "%(title)s/%(title)s.%(ext)s\" "

def subP7 : String := " && \\\n  for f in "

def subP8 : String := "\"*/*.wav ; do \\\n    [ -f \"$f\" ] || continue; \\\n    [ \"$f\" -nt \"$TS_FILE\" ] || continue; \\\n    whisper \"$f\" --model medium --language Chinese --output_dir \"$\x7bf%/*\x7d\" --output_format srt && \\\n    mv \"$\x7bf%.*\x7d.srt\" \"$\x7bf%.*\x7d.[Whisper].srt\" && \\\n    sed -E 's/<[^>]*>//g; /^[0-9][0-9]:[0-9][0-9]:[0-9][0-9]/d; /^[0-9]+$/d; /^WEBVTT/d; /^Kind:/d; /^Language:/d; /^$/d' \"$\x7bf%.*\x7d.[Whisper].srt\" | uniq > \"$\x7bf%.*\x7d.[Whisper].txt\" ; \\\n  done && \\\n  echo \"\u00e2\u0153\u2026 Whisper \u00e8\u00af\u00ad\u00e9\u0178\u00b3\u00e8\u00bd\u00ac\u00e6\u2013\u2021\u00e5\u00ad\u2014\u00e5\u00ae\u0152\u00e6\u02c6\u00ef\u00bc\"; \\\nelse \\\n  echo \"\u00e2\u0153\u2026 \u00e5\u00ad\u2014\u00e5\u00b9\u2022\u00e9\u2021\u00e5\u2018\u00bd\u00e5\u00e4\u00b8\u00e6\u2013\u2021\u00e6\u0153\u00ac\u00e6\u00e5\u2013\u00e5\u00ae\u0152\u00e6\u02c6\u00ef\u00bc\"; \\\nfi && rm \"$TS_FILE\""

def traL0 : String := "TS_FILE=\"/tmp/yt_dlp_ts_$(date +%s)\" && touch \"$TS_FILE\" && \\\necho \"\u011f\u0178\u2122\u00ef\u00b8 \u00e6\u00ad\u00a3\u00e5\u0153\u00a8\u00e5\u00af\u00e5\u0160\u00a8 Whisper \u00e8\u00af\u00ad\u00e9\u0178\u00b3\u00e8\u00af\u2020\u00e5\u02c6\u00ab\u00e8\u00bd\u00ac\u00e5\u00bd\u2022...\" && \\\nyt-dlp "

def traL3 : String := "/%(title)s/%(title)s.%(ext)s\" -x --audio-format mp3 --no-cache-dir && \\\nfor f in \""

def traL4 : String := "/\"*/*.mp3 ; do \\\n  [ -f \"$f\" ] || continue; \\\n  [ \"$f\" -nt \"$TS_FILE\" ] || continue; \\\n  whisper \"$f\" --model medium --output_format srt,txt --output_dir \"$\x7bf%/*\x7d\" && \\\n  mv \"$\x7bf%.*\x7d.srt\" \"$\x7bf%.*\x7d.[Whisper\u00e8\u00bd\u00ac\u00e5\u00bd\u2022].srt\" && \\\n  mv \"$\x7bf%.*\x7d.txt\" \"$\x7bf%.*\x7d.[Whisper\u00e8\u00bd\u00ac\u00e5\u00bd\u2022].txt\"; \\\ndone && \\\necho \"\u00e2\u0153\u2026 \u00e8\u00bd\u00ac\u00e5\u00bd\u2022\u00e5\u00ae\u0152\u00e6\u02c6\u00ef\u00bc\u00e8\u00af\u00b7\u00e5\u0153\u00a8\u00e8\u00a7\u2020\u00e9\u00a2\u2018\u00e5\u00af\u00b9\u00e5\u00ba\u201d\u00e7\u203a\u00ae\u00e5\u00bd\u2022\u00e4\u00b8\u00ad\u00e6\u0178\u00a5\u00e7\u0153\u2039\u00e5\u00b8\u00a6 [Whisper\u00e8\u00bd\u00ac\u00e5\u00bd\u2022] \u00e6\u00a0\u2021\u00e8\u00af\u2020\u00e7\u0161\u201e\u00e6\u2013\u2021\u00e4\u00bb\u00b6\" && rm \"$TS_FILE\""

def traP0 : String := "TS_FILE=\"/tmp/yt_dlp_ts_$(date +%s)\" && touch \"$TS_FILE\" && \\\necho \"\u011f\u0178\u2122\u00ef\u00b8 \u00e6\u00ad\u00a3\u00e5\u0153\u00a8\u00e5\u00af\u00e5\u0160\u00a8 Whisper \u00e8\u00af\u00ad\u00e9\u0178\u00b3\u00e8\u00af\u2020\u00e5\u02c6\u00ab\u00e8\u00bd\u00ac\u00e5\u00bd\u2022...\" && \\\nyt-dlp"

def traP3 : String := "%(title)s/%(title)s.%(ext)s\" -x --audio-format mp3 --no-cache-dir && \\\nfor f in "

def traP4 : String := "\"*/*.mp3 ; do \\\n  [ -f \"$f\" ] || continue; \\\n  [ \"$f\" -nt \"$TS_FILE\" ] || continue; \\\n  whisper \"$f\" --model medium --output_format srt,txt --output_dir \"$\x7bf%/*\x7d\" && \\\n  mv \"$\x7bf%.*\x7d.srt\" \"$\x7bf%.*\x7d.[Whisper\u00e8\u00bd\u00ac\u00e5\u00bd\u2022].srt\" && \\\n  mv \"$\x7bf%.*\x7d.txt\" \"$\x7bf%.*\x7d.[Whisper\u00e8\u00bd\u00ac\u00e5\u00bd\u2022].txt\"; \\\ndone && \\\necho \"\u00e2\u0153\u2026 \u00e8\u00bd\u00ac\u00e5\u00bd\u2022\u00e5\u00ae\u0152\u00e6\u02c6\u00ef\u00bc\u00e8\u00af\u00b7\u00e5\u0153\u00a8\u00e8\u00a7\u2020\u00e9\u00a2\u2018\u00e5\u00af\u00b9\u00e5\u00ba\u201d\u00e7\u203a\u00ae\u00e5\u00bd\u2022\u00e4\u00b8\u00ad\u00e6\u0178\u00a5\u00e7\u0153\u2039\u00e5\u00b8\u00a6 [Whisper\u00e8\u00bd\u00ac\u00e5\u00bd\u2022] \u00e6\u00a0\u2021\u00e8\u00af\u2020\u00e7\u0161\u201e\u00e6\u2013\u2021\u00e4\u00bb\u00b6\" && rm \"$TS_FILE\""

/-- Playlist flag selection (src/src/App.tsx line 242):
`isPlaylist ? '--yes-playlist' : '--no-playlist'`. -/
def playlistFlag (pl : Bool) : String := if pl then "--yes-playlist" else "--no-playlist"

/-- Shared output fragment (src/src/App.tsx line 241):
`-o "${outputPath}/%(title)s/%(title)s.%(ext)s"`. -/
def baseOutput (out : String) : String := "-o \"" ++ out ++ "/%(title)s/%(title)s.%(ext)s\""

/-- The `case 'video'` branch of `generatedCommand` (src/src/App.tsx 246-276). -/
def videoCase (pl : Bool) (out url : String) : String :=
  vidL0 ++ playlistFlag pl ++ vidL1 ++ baseOutput out ++ " \"" ++ url ++ vidL3 ++ out ++ vidL4 ++ out ++ vidL5

/-- The `case 'audio'` branch of `generatedCommand` (src/src/App.tsx 279). -/
def audioCase (pl : Bool) (out url : String) : String :=
  "yt-dlp " ++ playlistFlag pl ++ audL1 ++ baseOutput out ++ " \"" ++ url ++ "\""

/-- The `case 'subtitles'` branch of `generatedCommand` (src/src/App.tsx 282-313). -/
def subtitlesCase (pl : Bool) (out url : String) : String :=
  vidL0 ++ playlistFlag pl ++ " \"" ++ url ++ "\" -o \"" ++ out ++ subL3 ++ out ++ subL4 ++
    playlistFlag pl ++ subL5 ++ out ++ subL6 ++ url ++ subL7 ++ out ++ subL8

/-- The `case 'transcribe'` branch of `generatedCommand` (src/src/App.tsx 316-326). -/
def transcribeCase (pl : Bool) (out url : String) : String :=
  traL0 ++ playlistFlag pl ++ " \"" ++ url ++ "\" -o \"" ++ out ++ traL3 ++ out ++ traL4

/-! ### Decomposition lemmas for the command templates

Each template is rewritten into a canonical form in which every boundary
character (a quote, slash or space adjacent to an interpolated value) is an
explicit list cons, so that the `countOcc` splitting lemmas apply. -/

/-- Everything of the audio command that precedes the interpolated url. -/
def audioPre (pl : Bool) (out : String) : String :=
  "yt-dlp " ++ playlistFlag pl ++ audL1 ++ baseOutput out ++ " "

/-- Everything of the video command that precedes the interpolated url. -/
def videoPre (pl : Bool) (out : String) : String :=
  vidL0 ++ playlistFlag pl ++ vidL1 ++ baseOutput out ++ " "

/-- Everything of the video command that follows the interpolated url's closing quote. -/
def videoSuf (out : String) : String :=
  vidP3 ++ "\"" ++ out ++ vidL4 ++ out ++ vidL5

/-! ### URL classifier

Embedding of the validation regexes of src/src/App.tsx (lines 204-206):

  youtubeRegex  = /^(https?:\/\/)?(www\.)?(youtube\.com|youtu\.be)\/.+$/
  bilibiliRegex = /^(https?:\/\/)?(www\.)?bilibili\.com\/video\/.+$/

`jsDot` is the character class matched by `.` in a JavaScript regex without
the `s` flag (anything but a line terminator).  The three optional prefix
groups are matched greedily; since no alternative of a later group can start
with the first character of an earlier group ('h' for the scheme, 'w' for
`www.`, 'y'/'b' for the hosts), greedy matching agrees with the regex's
backtracking search, so the functions below compute exactly the regex tests. -/

def jsDot (c : Char) : Bool :=
  !(c == '\n' || c == '\r' || c == '\u2028' || c == '\u2029')

def afterScheme (l : List Char) : List Char :=
  if isPre "https://".data l then l.drop 8
  else if isPre "http://".data l then l.drop 7
  else l

def afterWww (l : List Char) : List Char :=
  if isPre "www.".data l then l.drop 4 else l

def ytHostRest (l : List Char) : Option (List Char) :=
  if isPre "youtube.com/".data l then some (l.drop 12)
  else if isPre "youtu.be/".data l then some (l.drop 9)
  else none

def biliHostRest (l : List Char) : Option (List Char) :=
  if isPre "bilibili.com/video/".data l then some (l.drop 19) else none

def pathOk (r : List Char) : Bool := !r.isEmpty && r.all jsDot

def ytMatchL (l : List Char) : Bool :=
  match ytHostRest (afterWww (afterScheme l)) with
  | some r => pathOk r
  | none => false

def biliMatchL (l : List Char) : Bool :=
  match biliHostRest (afterWww (afterScheme l)) with
  | some r => pathOk r
  | none => false

/-- Value of `youtubeRegex.test url` (src/src/App.tsx line 208). -/
def youtubeTest (s : String) : Bool := ytMatchL s.data

/-- Value of `bilibiliRegex.test url` (src/src/App.tsx line 209). -/
def bilibiliTest (s : String) : Bool := biliMatchL s.data

/-- Declarative reading of the YouTube pattern: optional scheme, optional
`www.`, host `youtube.com` or `youtu.be`, a slash and a non-empty remainder
of non-line-terminator characters. -/
def YtShape (l : List Char) : Prop :=
  ∃ sch www host rest : List Char,
    (sch = [] ∨ sch = "http://".data ∨ sch = "https://".data) ∧
    (www = [] ∨ www = "www.".data) ∧
    (host = "youtube.com/".data ∨ host = "youtu.be/".data) ∧
    rest ≠ [] ∧ rest.all jsDot = true ∧
    l = sch ++ www ++ host ++ rest

/-- Declarative reading of the Bilibili pattern. -/
def BiliShape (l : List Char) : Prop :=
  ∃ sch www rest : List Char,
    (sch = [] ∨ sch = "http://".data ∨ sch = "https://".data) ∧
    (www = [] ∨ www = "www.".data) ∧
    rest ≠ [] ∧ rest.all jsDot = true ∧
    l = sch ++ www ++ "bilibili.com/video/".data ++ rest

/-! ### Playlist detection

Embedding of `playlistRegex = /[&?]list=([^&]+)/` and of
`setIsPlaylist(playlistRegex.test(url))` (src/src/App.tsx lines 206, 213).
The regex is unanchored: the test succeeds iff some position of the url
starts a match, i.e. carries `&` or `?`, then the literal `list=`, then at
least one character that is not `&`. -/

def listAt : List Char → Bool
  | [] => false
  | c :: rest =>
    ((c == '&') || (c == '?')) && isPre "list=".data rest &&
      (match rest.drop 5 with
       | d :: _ => !(d == '&')
       | [] => false)

def hasListParam : List Char → Bool
  | [] => false
  | c :: l => listAt (c :: l) || hasListParam l

/-- Value of `playlistRegex.test url`, stored by `setIsPlaylist`. -/
def playlistTest (s : String) : Bool := hasListParam s.data

/-- Declarative reading of the whole playlist test: the url contains a
`list` query parameter with a non-empty value. -/
def HasListShape (l : List Char) : Prop :=
  ∃ a c d b, (c = '&' ∨ c = '?') ∧ d ≠ '&' ∧
    l = a ++ c :: ('l' :: 'i' :: 's' :: 't' :: '=' :: d :: b)

/-! ### The generated command

`DownloadType` is the `type` state of the UI; `validationState` is the value
the validation effect stores in `isValid` (src/src/App.tsx lines 198-213:
`null` for an empty url, otherwise the disjunction of the two regex tests);
`generatedCommand` is the `useMemo` of lines 238-331. -/

inductive DownloadType where
  | video
  | audio
  | subtitles
  | transcribe
deriving DecidableEq

/-- The `isValid` state after the validation effect ran for `url`. -/
def validationState (url : String) : Option Bool :=
  if url = "" then none else some (youtubeTest url || bilibiliTest url)

/-- The `generatedCommand` memo (src/src/App.tsx lines 238-331): empty unless
`isValid` is `true` and the url is non-empty, otherwise the per-mode
template. -/
def generatedCommand (url : String) (ty : DownloadType) (out : String)
    (isValid : Option Bool) (pl : Bool) : String :=
  if isValid ≠ some true ∨ url = "" then ""
  else
    match ty with
    | .video => videoCase pl out url
    | .audio => audioCase pl out url
    | .subtitles => subtitlesCase pl out url
    | .transcribe => transcribeCase pl out url

/-! ### Substring occurrence at the `String` level -/

/-- The needle `u` occurs as a (contiguous) substring of `s`. -/
def occursStr (u s : String) : Prop := ∃ a b : String, s = a ++ u ++ b

/-! ### Progress extraction from an output chunk

Embedding of the stdout handler of the streaming server (src/server.ts lines
162-177 and src/unnamed/part_000): the chunk is first matched against the
primary pattern `/\[progress\]\s+(\d+(\.\d+)?)%/`; if that fails, against the
fallback `/(\d+(\.\d+)?)%/`; the captured number is emitted, or nothing.
Both regexes are unanchored, so matching scans positions left to right; at a
fixed position the greedy runs of `\s+`, `\d+` and `(\.\d+)?` need no
backtracking, because whitespace, digits and the delimiters `.` and `%` are
pairwise disjoint character classes, so maximal-munch (`takeWhile`) is the
regex's semantics. -/

/-- The character class `\d` of a JavaScript regex. -/
def jsDigit (c : Char) : Bool := 48 ≤ c.toNat && c.toNat ≤ 57

/-- The character class `\s` of a JavaScript regex: space, `\t`, `\n`, `\v`,
`\f`, `\r`, NBSP, U+1680, U+2000-U+200A, U+2028, U+2029, U+202F, U+205F,
U+3000 and U+FEFF. -/
def jsWs (c : Char) : Bool :=
  c.toNat = 32 || c.toNat = 9 || c.toNat = 10 || c.toNat = 11 || c.toNat = 12 ||
  c.toNat = 13 || c.toNat = 160 || c.toNat = 5760 ||
  (8192 ≤ c.toNat && c.toNat ≤ 8202) || c.toNat = 8232 || c.toNat = 8233 ||
  c.toNat = 8239 || c.toNat = 8287 || c.toNat = 12288 || c.toNat = 65279

/-- Numeric value of a digit run. -/
def digitsVal (l : List Char) : Nat := l.foldl (fun n c => 10 * n + (c.toNat - 48)) 0

/-- Value of the capture `(\d+(\.\d+)?)` as `parseFloat` reads it. -/
def ratOf (D F : List Char) : ℚ := (digitsVal D : ℚ) + (digitsVal F : ℚ) / (10 : ℚ) ^ F.length

/-- The optional group `(\.\d+)?` followed by `%`, after the integer part
`D`: `r2` is the text after the dot. -/
def fracPart (D r2 : List Char) : Option ℚ :=
  if (r2.takeWhile jsDigit).isEmpty then none
  else
    match r2.dropWhile jsDigit with
    | '%' :: _ => some (ratOf D (r2.takeWhile jsDigit))
    | _ => none

/-- Match of `(\d+(\.\d+)?)%` at the head of `l`, returning the parsed
capture. -/
def numPct (l : List Char) : Option ℚ :=
  if (l.takeWhile jsDigit).isEmpty then none
  else
    match l.dropWhile jsDigit with
    | '%' :: _ => some (digitsVal (l.takeWhile jsDigit) : ℚ)
    | '.' :: r2 => fracPart (l.takeWhile jsDigit) r2
    | _ => none

/-- Match of `\[progress\]\s+(\d+(\.\d+)?)%` at the head of `l`. -/
def primAt (l : List Char) : Option ℚ :=
  if isPre "[progress]".data l then
    if ((l.drop 10).takeWhile jsWs).isEmpty then none
    else numPct ((l.drop 10).dropWhile jsWs)
  else none

/-- Leftmost match: the unanchored `match` of JavaScript tries every start
position from the left, the end-of-string position included. -/
def scanFirst (f : List Char → Option ℚ) : List Char → Option ℚ
  | [] => f []
  | c :: l =>
    match f (c :: l) with
    | some q => some q
    | none => scanFirst f l

/-- The number the stdout handler emits for an output chunk: the primary
`[progress]` pattern takes priority, the bare-percentage pattern is the
fallback, and no event is emitted when neither matches. -/
def extractProgress (s : String) : Option ℚ :=
  match scanFirst primAt s.data with
  | some q => some q
  | none => scanFirst numPct s.data

/-- Declarative reading of a match of `(\d+(\.\d+)?)%` at the head of `l`
with captured value `q`. -/
def NumShapeAt (l : List Char) (q : ℚ) : Prop :=
  (∃ D rest, D ≠ [] ∧ D.all jsDigit = true ∧ l = D ++ '%' :: rest ∧ q = (digitsVal D : ℚ))
  ∨ (∃ D F rest, D ≠ [] ∧ F ≠ [] ∧ D.all jsDigit = true ∧ F.all jsDigit = true ∧
      l = D ++ '.' :: (F ++ '%' :: rest) ∧ q = ratOf D F)

/-- Declarative reading of a match of `\[progress\]\s+(\d+(\.\d+)?)%` at the
head of `l`. -/
def PrimShapeAt (l : List Char) (q : ℚ) : Prop :=
  ∃ w rest, w ≠ [] ∧ w.all jsWs = true ∧ l = "[progress]".data ++ (w ++ rest) ∧
    NumShapeAt rest q

/-! ### The start-download channel (src/server.ts lines 150-161,
src/unnamed/part_000 lines 23-31)

`command.includes("yt-dlp")` guards a `command.replace(...)`, and JavaScript
`String.replace` with a string pattern replaces only the first (leftmost)
occurrence. -/

/-- Whether `u` occurs as a substring of `s` (JavaScript `s.includes(u)`). -/
def strIncludes (u s : String) : Bool := hasSub u.data s.data

/-- Replace the first occurrence of `u` in the list by `v`; the list is
returned unchanged when `u` does not occur. -/
def repFirst (u v : List Char) : List Char → List Char
  | [] => if isPre u [] then v else []
  | c :: l => if isPre u (c :: l) then v ++ (c :: l).drop u.length else c :: repFirst u v l

/-- The replacement text of the `start-download` handler. -/
def ytdlpWithFlags : String :=
  "yt-dlp --newline --progress-template \"[progress] %(progress.percentage)s%\""

/-- The `modifiedCommand`: the command actually handed to
`spawn("bash", ["-c", modifiedCommand])`. -/
def modifyCommand (command : String) : String :=
  if strIncludes "yt-dlp" command then
    String.mk (repFirst "yt-dlp".data ytdlpWithFlags.data command.data)
  else command

/-! ### Events of one streaming run (src/server.ts lines 162-188)

A spawned process is observed as a sequence of stdout chunks, stderr chunks
and one final close carrying the exit code (`null` when the process was
killed by a signal); the handler turns each observation into socket
events. -/

/-- An observation from the spawned process. -/
inductive PEv where
  | out (d : String)
  | err (d : String)
  | close (code : Option Int)
deriving DecidableEq

/-- A socket event emitted to the client. -/
inductive SEv where
  | log (s : String)
  | progress (q : ℚ)
  | complete (ok : Bool)
deriving DecidableEq

def isClose : PEv → Bool
  | .close _ => true
  | _ => false

def isComplete : SEv → Bool
  | .complete _ => true
  | _ => false

/-- The socket events the handlers emit for one process observation:
stdout emits the log line and, when a percentage is extracted, a progress
event; stderr emits a prefixed log line; close emits `download-complete`
with `code === 0`. -/
def emitFor : PEv → List SEv
  | .out d =>
    SEv.log d ::
      (match extractProgress d with
       | some q => [SEv.progress q]
       | none => [])
  | .err d => [SEv.log ("ERROR: " ++ d)]
  | .close code => [SEv.complete (decide (code = some 0))]

/-- All socket events of a run, in order. -/
def runEvents : List PEv → List SEv
  | [] => []
  | e :: evs => emitFor e ++ runEvents evs

/-! ### The fire-and-forget POST /api/download endpoint

Two variants exist: src/src/api.ts lines 119-153 (with the `process.env.VERCEL`
guard) and src/server.ts lines 104-145 (without it); both build the same
command strings and respond the same way otherwise.  Body fields are modelled
as `Option String` (`none` = absent); JavaScript's `||` treats the empty
string as absent too. -/

/-- JavaScript `v || dflt` for a string-valued body field. -/
def falsyOr (v : Option String) (dflt : String) : String :=
  match v with
  | none => dflt
  | some s => if s = "" then dflt else s

def apiVideoCmd (url path : String) : String :=
  "yt-dlp --no-playlist \"" ++ url ++ "\" -o \"" ++ path ++
    "%(title)s/%(title)s.%(ext)s\" --write-subs --write-auto-subs --sub-langs \"en.*,zh-Hans,zh-Hant,zh-Hans-en,zh-Hant-en,zh.*\" --convert-subs srt --embed-subs --embed-metadata --merge-output-format mkv --ignore-errors --no-cache-dir"

def apiAudioCmd (url path : String) : String :=
  "yt-dlp --no-playlist \"" ++ url ++ "\" -o \"" ++ path ++
    "%(title)s/%(title)s.%(ext)s\" -x --audio-format mp3 --audio-quality 0 --embed-thumbnail --embed-metadata --ignore-errors --no-cache-dir"

def apiSubtitleCmd (url path : String) : String :=
  "yt-dlp --no-playlist \"" ++ url ++ "\" -o \"" ++ path ++
    "%(title)s/%(title)s.%(ext)s\" --write-subs --write-auto-subs --sub-langs \"en.*,zh-Hans,zh-Hant,zh-Hans-en,zh-Hant-en,zh.*\" --convert-subs srt --skip-download --ignore-errors --no-cache-dir"

/-- The `if / else if / else if` ladder on `downloadType`; any other type
leaves `command` as the empty string. -/
def apiCommandFor (downloadType url path : String) : String :=
  if downloadType = "video" then apiVideoCmd url path
  else if downloadType = "audio" then apiAudioCmd url path
  else if downloadType = "subtitle" then apiSubtitleCmd url path
  else ""

/-- What a request to the endpoint produces: the HTTP status, the json
fields that are set, and the argument list of the spawn when one happens. -/
structure DlResult where
  status : Nat
  error : Option String
  bodyStatus : Option String
  command : Option String
  message : Option String
  spawned : Option (List String)
deriving DecidableEq

def startedMsg : String := "Download process started in background. Check server logs for details."

def defaultDlPath : String := "/Users/yuliu/Movies/YouTube DL/"

def vercelErr : String :=
  "Download not supported in Vercel environment. Please use local server."

/-- The api.ts variant: missing url means 400, the `VERCEL` environment
flag means 403, otherwise the command is built, spawned, and the response
returns immediately. -/
def apiDownload (vercel : Bool) (url ty outPath : Option String) : DlResult :=
  match url with
  | none => ⟨400, some "Missing URL", none, none, none, none⟩
  | some u =>
    if u = "" then ⟨400, some "Missing URL", none, none, none, none⟩
    else if vercel then ⟨403, some vercelErr, none, none, none, none⟩
    else
      ⟨200, none, some "started",
        some (apiCommandFor (falsyOr ty "video") u (falsyOr outPath defaultDlPath)),
        some startedMsg,
        some ["bash", "-c", apiCommandFor (falsyOr ty "video") u (falsyOr outPath defaultDlPath)]⟩

/-- The server.ts variant: the same endpoint without the `VERCEL` guard;
the environment flag has no effect on it. -/
def serverDownload (vercel : Bool) (url ty outPath : Option String) : DlResult :=
  match url with
  | none => ⟨400, some "Missing URL", none, none, none, none⟩
  | some u =>
    if u = "" then ⟨400, some "Missing URL", none, none, none, none⟩
    else
      ⟨200, none, some "started",
        some (apiCommandFor (falsyOr ty "video") u (falsyOr outPath defaultDlPath)),
        some startedMsg,
        some ["bash", "-c", apiCommandFor (falsyOr ty "video") u (falsyOr outPath defaultDlPath)]⟩

/-! ### Copy history (src/src/App.tsx lines 333-352)

`setHistory(prev => [newItem, ...prev.filter(item => item.url !== url)]
.slice(0, 10))` where `url` is the current url, i.e. `newItem`'s. -/

structure HItem where
  id : String
  url : String
  title : String
  hty : String
  command : String
  timestamp : Nat
deriving DecidableEq

/-- The new history list after a copy. -/
def addHistory (item : HItem) (prev : List HItem) : List HItem :=
  (item :: prev.filter (fun it => it.url != item.url)).take 10

/-! ### Shell structure of the subtitles and transcribe templates

The two sentinel-file templates (src/src/App.tsx lines 281-313 and 315-326)
are compound shell commands.  `Sh` is their parse: simple commands are
opaque `prim`s carrying their exact source text; `andS`/`seqS`/`iteS` carry
the exact separator text between the rendered parts, so that `renderSh`
reproduces the generated string character for character, while `runSh`
gives the usual shell control flow (`a && b` runs `b` only when `a`
succeeds; `a ; b` runs `b` regardless; `if c; then t; else e; fi` runs one
branch by `c`'s status), recording the trace of simple commands run.
Success or failure of a simple command is an oracle `w`. -/

def tsAssign : String := "TS_FILE=\"/tmp/yt_dlp_ts_$(date +%s)\""

def tsTouch : String := "touch \"$TS_FILE\""

def tsRm : String := "rm \"$TS_FILE\""

def traEcho1 : String := "echo \"\u011f\u0178\u2122\u00ef\u00b8 \u00e6\u00ad\u00a3\u00e5\u0153\u00a8\u00e5\u00af\u00e5\u0160\u00a8 Whisper \u00e8\u00af\u00ad\u00e9\u0178\u00b3\u00e8\u00af\u2020\u00e5\u02c6\u00ab\u00e8\u00bd\u00ac\u00e5\u00bd\u2022...\""

def traEcho2 : String := "echo \"\u00e2\u0153\u2026 \u00e8\u00bd\u00ac\u00e5\u00bd\u2022\u00e5\u00ae\u0152\u00e6\u02c6\u00ef\u00bc\u00e8\u00af\u00b7\u00e5\u0153\u00a8\u00e8\u00a7\u2020\u00e9\u00a2\u2018\u00e5\u00af\u00b9\u00e5\u00ba\u201d\u00e7\u203a\u00ae\u00e5\u00bd\u2022\u00e4\u00b8\u00ad\u00e6\u0178\u00a5\u00e7\u0153\u2039\u00e5\u00b8\u00a6 [Whisper\u00e8\u00bd\u00ac\u00e5\u00bd\u2022] \u00e6\u00a0\u2021\u00e8\u00af\u2020\u00e7\u0161\u201e\u00e6\u2013\u2021\u00e4\u00bb\u00b6\""

def traYtTail : String := "/%(title)s/%(title)s.%(ext)s\" -x --audio-format mp3 --no-cache-dir"

def traForTail : String := "/\"*/*.mp3 ; do \\\n  [ -f \"$f\" ] || continue; \\\n  [ \"$f\" -nt \"$TS_FILE\" ] || continue; \\\n  whisper \"$f\" --model medium --output_format srt,txt --output_dir \"$\x7bf%/*\x7d\" && \\\n  mv \"$\x7bf%.*\x7d.srt\" \"$\x7bf%.*\x7d.[Whisper\u00e8\u00bd\u00ac\u00e5\u00bd\u2022].srt\" && \\\n  mv \"$\x7bf%.*\x7d.txt\" \"$\x7bf%.*\x7d.[Whisper\u00e8\u00bd\u00ac\u00e5\u00bd\u2022].txt\"; \\\ndone"

def subYtTail : String := "/%(title)s/%(title)s.%(ext)s\" --write-subs --write-auto-subs --sub-langs \"en.*,zh-Hans,zh-Hant,zh-Hans-en,zh-Hant-en,zh.*\" --convert-subs srt --skip-download --ignore-errors --sleep-subtitles 5 --no-cache-dir"

def subEcho1 : String := "echo \"\u011f\u0178\u00b7\u00ef\u00b8 \u00e6\u00ad\u00a3\u00e5\u0153\u00a8\u00e9\u2021\u00e5\u2018\u00bd\u00e5\u00e5\u00b9\u00b6\u00e6\u00e5\u2013\u00e6\u2013\u2021\u00e6\u0153\u00ac\u00e5\u2020\u2026\u00e5\u00ae\u00b9 (\u00e8\u2021\u00aa\u00e5\u0160\u00a8\u00e5\u00bb\u00e9\u2021)...\""

def subCond : String := "[ \"$found_subs\" = \"false\" ]"

def subEchoWarn : String := "echo \"\u00e2\u0161\u00a0\u00ef\u00b8 \u00e6\u0153\u00aa\u00e5\u2018\u00e7\u00b0\u00e5\u00ad\u2014\u00e5\u00b9\u2022\u00ef\u00bc\u0152\u00e5\u00af\u00e5\u0160\u00a8 Whisper \u00e8\u00af\u00ad\u00e9\u0178\u00b3\u00e8\u00bd\u00ac\u00e6\u2013\u2021\u00e5\u00ad\u2014...\""

def subForTail : String := "/\"*/*.srt ; do \\\n  [ -f \"$f\" ] || continue; \\\n  [ \"$f\" -nt \"$TS_FILE\" ] || continue; \\\n  found_subs=true; \\\n  [[ \"$f\" == *\"[\u00e5\u0178\u00e5\u00a7\u2039\u00e5\u00ad\u2014\u00e5\u00b9\u2022]\"* ]] || [[ \"$f\" == *\"[\u00e8\u2021\u00aa\u00e5\u0160\u00a8\u00e7\u00bf\u00bb\u00e8\u00af\u2018]\"* ]] || [[ \"$f\" == *\"[\u00e8\u2021\u00aa\u00e5\u0160\u00a8\u00e7\u201d\u0178\u00e6\u02c6]\"* ]] && continue; \\\n  new_name=\"$f\"; \\\n  if [[ \"$f\" == *\"orig\"* ]]; then label=\"\u00e5\u0178\u00e5\u00a7\u2039\u00e5\u00ad\u2014\u00e5\u00b9\u2022\"; \\\n  elif [[ \"$f\" == *\"en-en\"* ]]; then label=\"\u00e8\u2021\u00aa\u00e5\u0160\u00a8\u00e7\u201d\u0178\u00e6\u02c6\"; \\\n  elif [[ \"$f\" == *\"-en\"* ]] || [[ \"$f\" == *\"-zh-\"* ]] || [[ \"$f\" == *\".zh-Hans.\"* ]] || [[ \"$f\" == *\".zh-Hant.\"* ]]; then label=\"\u00e8\u2021\u00aa\u00e5\u0160\u00a8\u00e7\u00bf\u00bb\u00e8\u00af\u2018\"; \\\n  else label=\"\u00e5\u0178\u00e5\u00a7\u2039\u00e5\u00ad\u2014\u00e5\u00b9\u2022\"; fi; \\\n  new_name=\"$\x7bf%.*\x7d.[$label].srt\"; \\\n  [ \"$f\" != \"$new_name\" ] && [ ! -f \"$new_name\" ] && mv \"$f\" \"$new_name\"; \\\n  sed -E 's/<[^>]*>//g; /^[0-9][0-9]:[0-9][0-9]:[0-9][0-9]/d; /^[0-9]+$/d; /^WEBVTT/d; /^Kind:/d; /^Language:/d; /^$/d' \"$new_name\" | uniq > \"$\x7bnew_name%.*\x7d.txt\" ; \\\ndone"

def subWavTail : String := "/\"*/*.wav ; do \\\n    [ -f \"$f\" ] || continue; \\\n    [ \"$f\" -nt \"$TS_FILE\" ] || continue; \\\n    whisper \"$f\" --model medium --language Chinese --output_dir \"$\x7bf%/*\x7d\" --output_format srt && \\\n    mv \"$\x7bf%.*\x7d.srt\" \"$\x7bf%.*\x7d.[Whisper].srt\" && \\\n    sed -E 's/<[^>]*>//g; /^[0-9][0-9]:[0-9][0-9]:[0-9][0-9]/d; /^[0-9]+$/d; /^WEBVTT/d; /^Kind:/d; /^Language:/d; /^$/d' \"$\x7bf%.*\x7d.[Whisper].srt\" | uniq > \"$\x7bf%.*\x7d.[Whisper].txt\" ; \\\n  done"

def subEchoOk : String := "echo \"\u00e2\u0153\u2026 Whisper \u00e8\u00af\u00ad\u00e9\u0178\u00b3\u00e8\u00bd\u00ac\u00e6\u2013\u2021\u00e5\u00ad\u2014\u00e5\u00ae\u0152\u00e6\u02c6\u00ef\u00bc\""

def subEchoElse : String := "echo \"\u00e2\u0153\u2026 \u00e5\u00ad\u2014\u00e5\u00b9\u2022\u00e9\u2021\u00e5\u2018\u00bd\u00e5\u00e4\u00b8\u00e6\u2013\u2021\u00e6\u0153\u00ac\u00e6\u00e5\u2013\u00e5\u00ae\u0152\u00e6\u02c6\u00ef\u00bc\""

inductive Sh where
  | prim (s : String)
  | seqS (sep : String) (a b : Sh)
  | andS (sep : String) (a b : Sh)
  | iteS (pre mid1 mid2 post : String) (c t e : Sh)

/-- The exact text the template holds for a script. -/
def renderSh : Sh → String
  | .prim s => s
  | .seqS sep a b => renderSh a ++ sep ++ renderSh b
  | .andS sep a b => renderSh a ++ sep ++ renderSh b
  | .iteS pre mid1 mid2 post c t e =>
    pre ++ renderSh c ++ mid1 ++ renderSh t ++ mid2 ++ renderSh e ++ post

/-- Shell control flow under a success oracle: the trace of simple
commands run, and the exit status. -/
def runSh (w : String → Bool) : Sh → List String × Bool
  | .prim s => ([s], w s)
  | .seqS _ a b =>
    let r1 := runSh w a
    let r2 := runSh w b
    (r1.1 ++ r2.1, r2.2)
  | .andS _ a b =>
    let r1 := runSh w a
    if r1.2 then
      let r2 := runSh w b
      (r1.1 ++ r2.1, r2.2)
    else r1
  | .iteS _ _ _ _ c t e =>
    let rc := runSh w c
    if rc.2 then
      let rt := runSh w t
      (rc.1 ++ rt.1, rt.2)
    else
      let re := runSh w e
      (rc.1 ++ re.1, re.2)

/-- The transcribe template's yt-dlp invocation. -/
def ytdlpTra (pl : Bool) (out url : String) : String :=
  "yt-dlp " ++ playlistFlag pl ++ " \"" ++ url ++ "\" -o \"" ++ out ++ traYtTail

/-- The transcribe template's whisper for-loop. -/
def forTra (out : String) : String := "for f in \"" ++ out ++ traForTail

/-- The transcribe template as a shell command: one `&&` chain ending in
the sentinel removal. -/
def transcribeScript (pl : Bool) (out url : String) : Sh :=
  .andS " && " (.prim tsAssign)
    (.andS " && \\\n" (.prim tsTouch)
      (.andS " && \\\n" (.prim traEcho1)
        (.andS " && \\\n" (.prim (ytdlpTra pl out url))
          (.andS " && \\\n" (.prim (forTra out))
            (.andS " && " (.prim traEcho2) (.prim tsRm))))))

/-- The subtitles template's main yt-dlp invocation. -/
def ytdlpSub (pl : Bool) (out url : String) : String :=
  "yt-dlp " ++ playlistFlag pl ++ " \"" ++ url ++ "\" -o \"" ++ out ++ subYtTail

/-- The subtitles template's subtitle-renaming for-loop. -/
def forSub (out : String) : String := "for f in \"" ++ out ++ subForTail

/-- The fallback yt-dlp invocation of the subtitles template's Whisper
branch. -/
def ytdlpWav (pl : Bool) (out url : String) : String :=
  "yt-dlp " ++ playlistFlag pl ++ " -x --audio-format wav -o \"" ++ out ++
    "/%(title)s/%(title)s.%(ext)s\" \"" ++ url ++ "\""

/-- The Whisper for-loop of the fallback branch. -/
def forWav (out : String) : String := "for f in \"" ++ out ++ subWavTail

/-- The final `if` of the subtitles template: Whisper fallback when no
subtitles were found, otherwise a message. -/
def subIf (pl : Bool) (out url : String) : Sh :=
  .iteS "if " "; then \\\n  " "; \\\nelse \\\n  " "; \\\nfi" (.prim subCond)
    (.andS " && \\\n  " (.prim subEchoWarn)
      (.andS " && \\\n  " (.prim (ytdlpWav pl out url))
        (.andS " && \\\n  " (.prim (forWav out)) (.prim subEchoOk))))
    (.prim subEchoElse)

/-- The subtitles template as a shell command: an `&&` chain, then (by
`;`) the renaming loop, then (by `;`) the `if` whose success guards the
sentinel removal. -/
def subtitlesScript (pl : Bool) (out url : String) : Sh :=
  .seqS "; \\\n"
    (.andS " && " (.prim tsAssign)
      (.andS " && \\\n" (.prim tsTouch)
        (.andS " && \\\n" (.prim (ytdlpSub pl out url))
          (.andS " && \\\n" (.prim subEcho1) (.prim "found_subs=false")))))
    (.seqS "; \\\n" (.prim (forSub out))
      (.andS " && " (subIf pl out url) (.prim tsRm)))

theorem isPre_iff (u l : List Char) : isPre u l = true ↔ ∃ t, l = u ++ t := by
  induction u generalizing l with
  | nil => simp [isPre]
  | cons a as ih =>
    cases l with
    | nil => simp [isPre]
    | cons b bs =>
      simp only [isPre, Bool.and_eq_true, beq_iff_eq, ih]
      constructor
      · rintro ⟨rfl, t, rfl⟩; exact ⟨t, rfl⟩
      · rintro ⟨t, h⟩
        injection h with h1 h2
        exact ⟨h1.symm, t, h2⟩

theorem isPre_overhang (u : List Char) (c : Char) (hc : c ∉ u) :
    ∀ X Y : List Char, isPre u (X ++ c :: Y) = isPre u X := by
  induction u with
  | nil => intro X Y; simp [isPre]
  | cons a as ih =>
    intro X Y
    cases X with
    | nil =>
      have hac : (a == c) = false := by
        simp only [beq_eq_false_iff_ne]; intro h; exact hc (h ▸ List.mem_cons_self a as)
      simp [isPre, hac]
    | cons x xs =>
      have : c ∉ as := fun h => hc (List.mem_cons_of_mem a h)
      simp [isPre, ih this]

theorem countOcc_split (u : List Char) (c : Char) (hu : u ≠ []) (hc : c ∉ u) :
    ∀ X Y : List Char, countOcc u (X ++ c :: Y) = countOcc u X + countOcc u Y := by
  intro X Y
  induction X with
  | nil =>
    obtain ⟨a, as, rfl⟩ : ∃ a as, u = a :: as := by
      cases u with | nil => exact absurd rfl hu | cons a as => exact ⟨a, as, rfl⟩
    have hac : (a == c) = false := by
      simp only [beq_eq_false_iff_ne]; intro h; exact hc (h ▸ List.mem_cons_self a as)
    simp [countOcc, isPre, hac]
  | cons x xs ih =>
    have hov : isPre u (x :: (xs ++ c :: Y)) = isPre u (x :: xs) := by
      have h := isPre_overhang u c hc (x :: xs) Y
      simpa using h
    simp only [List.cons_append, countOcc, List.append_eq, ih]
    simp only [hov]
    cases h : isPre u (x :: xs) <;> simp [Nat.add_assoc]

theorem isPre_self (u : List Char) : isPre u u = true := by
  induction u with
  | nil => rfl
  | cons a as ih => simp [isPre, ih]

theorem isPre_length (u l : List Char) (h : isPre u l = true) : u.length ≤ l.length := by
  obtain ⟨t, rfl⟩ := (isPre_iff u l).1 h
  simp

theorem countOcc_short (u : List Char) : ∀ l : List Char, l.length < u.length → countOcc u l = 0 := by
  intro l
  induction l with
  | nil => intro _; rfl
  | cons c cs ih =>
    intro h
    have h1 : isPre u (c :: cs) = false := by
      cases hp : isPre u (c :: cs)
      · rfl
      · exact absurd (isPre_length u _ hp) (by omega)
    have h2 : cs.length < u.length := by simp at h ⊢; omega
    simp [countOcc, h1, ih h2]

theorem countOcc_self (u : List Char) (hu : u ≠ []) : countOcc u u = 1 := by
  obtain ⟨a, as, rfl⟩ : ∃ a as, u = a :: as := by
    cases u with | nil => exact absurd rfl hu | cons a as => exact ⟨a, as, rfl⟩
  have h1 : countOcc (a :: as) as = 0 := countOcc_short _ _ (by simp)
  simp [countOcc, isPre_self, h1]

theorem countOcc_cons_ne (u : List Char) (c : Char) (hu : u ≠ []) (hc : u.head? ≠ some c) (Y : List Char) :
    countOcc u (c :: Y) = countOcc u Y := by
  obtain ⟨a, as, rfl⟩ : ∃ a as, u = a :: as := by
    cases u with | nil => exact absurd rfl hu | cons a as => exact ⟨a, as, rfl⟩
  have hac : (a == c) = false := by
    simp only [beq_eq_false_iff_ne]; intro h; subst h; simp at hc
  simp [countOcc, isPre, hac]

theorem countOcc_zero_iff (u l : List Char) (hu : u ≠ []) :
    countOcc u l = 0 ↔ hasSub u l = false := by
  induction l with
  | nil =>
    obtain ⟨a, as, rfl⟩ : ∃ a as, u = a :: as := by
      cases u with | nil => exact absurd rfl hu | cons a as => exact ⟨a, as, rfl⟩
    simp [countOcc, hasSub, isPre]
  | cons c cs ih => cases h : isPre u (c :: cs) <;> simp [countOcc, hasSub, h, ih]

theorem countOcc_ne_zero_iff (u l : List Char) (hu : u ≠ []) :
    countOcc u l ≠ 0 ↔ ∃ a b : List Char, l = a ++ u ++ b := by
  induction l with
  | nil =>
    constructor
    · intro h; exact absurd rfl h
    · rintro ⟨a, b, h⟩
      exfalso
      have hlen := congrArg List.length h
      simp at hlen
      exact hu (List.eq_nil_of_length_eq_zero (by omega))
  | cons c cs ih =>
    cases h : isPre u (c :: cs) with
    | true =>
      obtain ⟨t, ht⟩ := (isPre_iff _ _).1 h
      simp only [countOcc, h, if_true, ne_eq]
      constructor
      · intro _; exact ⟨[], t, by simpa using ht⟩
      · intro _; omega
    | false =>
      have hc0 : countOcc u (c :: cs) = countOcc u cs := by simp [countOcc, h]
      rw [hc0, ih]
      constructor
      · rintro ⟨a, b, rfl⟩; exact ⟨c :: a, b, by simp⟩
      · rintro ⟨a, b, hab⟩
        cases a with
        | nil =>
          exfalso
          have hpre : isPre u (c :: cs) = true := by
            rw [isPre_iff]; exact ⟨b, by simpa using hab⟩
          rw [h] at hpre; exact Bool.false_ne_true hpre
        | cons x xs =>
          injection hab with h1 h2
          exact ⟨xs, b, h2⟩

theorem countOcc_zero_of_hasSub (u l : List Char) (hu : u ≠ []) (h : hasSub u l = false) :
    countOcc u l = 0 :=
  (countOcc_zero_iff u l hu).2 h

theorem dVidL0 (r : List Char) : vidL0.data ++ r = vidP0.data ++ ' ' :: r := by
  have h : vidL0.data = vidP0.data ++ [' '] := by decide
  rw [h]; simp

theorem dVidL1 (r : List Char) : vidL1.data ++ r = ' ' :: (vidP1.data ++ ' ' :: r) := by
  have h : vidL1.data = ' ' :: vidP1.data ++ [' '] := by decide
  rw [h]; simp

theorem dVidL3 (r : List Char) : vidL3.data ++ r = '"' :: (vidP3.data ++ '"' :: r) := by
  have h : vidL3.data = '"' :: vidP3.data ++ ['"'] := by decide
  rw [h]; simp

theorem dVidL4 (r : List Char) : vidL4.data ++ r = '/' :: (vidP4.data ++ '"' :: r) := by
  have h : vidL4.data = '/' :: vidP4.data ++ ['"'] := by decide
  rw [h]; simp

theorem dVidL5 : vidL5.data = '/' :: vidP5.data := by decide

theorem dAudL1 (r : List Char) : audL1.data ++ r = ' ' :: (audP1.data ++ ' ' :: r) := by
  have h : audL1.data = ' ' :: audP1.data ++ [' '] := by decide
  rw [h]; simp

theorem dSubL3 (r : List Char) : subL3.data ++ r = '/' :: (subP3.data ++ '"' :: r) := by
  have h : subL3.data = '/' :: subP3.data ++ ['"'] := by decide
  rw [h]; simp

theorem dSubL4 (r : List Char) : subL4.data ++ r = '/' :: (subP4.data ++ ' ' :: r) := by
  have h : subL4.data = '/' :: subP4.data ++ [' '] := by decide
  rw [h]; simp

theorem dSubL5 (r : List Char) : subL5.data ++ r = ' ' :: (subP5.data ++ '"' :: r) := by
  have h : subL5.data = ' ' :: subP5.data ++ ['"'] := by decide
  rw [h]; simp

theorem dSubL6 (r : List Char) : subL6.data ++ r = '/' :: (subP6.data ++ '"' :: r) := by
  have h : subL6.data = '/' :: subP6.data ++ ['"'] := by decide
  rw [h]; simp

theorem dSubL7 (r : List Char) : subL7.data ++ r = '"' :: (subP7.data ++ '"' :: r) := by
  have h : subL7.data = '"' :: subP7.data ++ ['"'] := by decide
  rw [h]; simp

theorem dSubL8 : subL8.data = '/' :: subP8.data := by decide

theorem dTraL0 (r : List Char) : traL0.data ++ r = traP0.data ++ ' ' :: r := by
  have h : traL0.data = traP0.data ++ [' '] := by decide
  rw [h]; simp

theorem dTraL3 (r : List Char) : traL3.data ++ r = '/' :: (traP3.data ++ '"' :: r) := by
  have h : traL3.data = '/' :: traP3.data ++ ['"'] := by decide
  rw [h]; simp

theorem dTraL4 : traL4.data = '/' :: traP4.data := by decide

/-- Canonical split form of the video command. -/
theorem video_flat (pl : Bool) (out url : String) :
    (videoCase pl out url).data =
      vidP0.data ++ ' ' :: ((playlistFlag pl).data ++ ' ' :: (vidP1.data ++ ' ' :: ("-o ".data ++ '"' ::
        (out.data ++ '/' :: ("%(title)s/%(title)s.%(ext)s".data ++ '"' :: (" ".data ++ '"' ::
        (url.data ++ '"' :: (vidP3.data ++ '"' :: (out.data ++ '/' :: (vidP4.data ++ '"' ::
        (out.data ++ '/' :: vidP5.data))))))))))) := by
  simp only [videoCase, baseOutput, String.data_append, dVidL0, dVidL1, dVidL3, dVidL4,
    dVidL5, List.append_assoc, List.cons_append, List.nil_append, List.singleton_append]

/-- Canonical split form of the audio command. -/
theorem audio_flat (pl : Bool) (out url : String) :
    (audioCase pl out url).data =
      "yt-dlp".data ++ ' ' :: ((playlistFlag pl).data ++ ' ' :: (audP1.data ++ ' ' :: ("-o ".data ++ '"' ::
        (out.data ++ '/' :: ("%(title)s/%(title)s.%(ext)s".data ++ '"' :: (" ".data ++ '"' ::
        (url.data ++ ['"']))))))) := by
  simp only [audioCase, baseOutput, String.data_append, dAudL1,
    List.append_assoc, List.cons_append, List.nil_append, List.singleton_append]

/-- Canonical split form of the subtitles command. -/
theorem subtitles_flat (pl : Bool) (out url : String) :
    (subtitlesCase pl out url).data =
      vidP0.data ++ ' ' :: ((playlistFlag pl).data ++ ' ' :: ('"' ::
        (url.data ++ '"' :: (" -o ".data ++ '"' :: (out.data ++ '/' :: (subP3.data ++ '"' ::
        (out.data ++ '/' :: (subP4.data ++ ' ' :: ((playlistFlag pl).data ++ ' ' :: (subP5.data ++ '"' ::
        (out.data ++ '/' :: (subP6.data ++ '"' :: (url.data ++ '"' :: (subP7.data ++ '"' ::
        (out.data ++ '/' :: subP8.data))))))))))))))) := by
  simp only [subtitlesCase, String.data_append, dVidL0, dSubL3, dSubL4, dSubL5, dSubL6,
    dSubL7, dSubL8, List.append_assoc, List.cons_append, List.nil_append, List.singleton_append]

/-- Canonical split form of the transcribe command. -/
theorem transcribe_flat (pl : Bool) (out url : String) :
    (transcribeCase pl out url).data =
      traP0.data ++ ' ' :: ((playlistFlag pl).data ++ ' ' :: ('"' ::
        (url.data ++ '"' :: (" -o ".data ++ '"' :: (out.data ++ '/' :: (traP3.data ++ '"' ::
        (out.data ++ '/' :: traP4.data))))))) := by
  simp only [transcribeCase, String.data_append, dTraL0, dTraL3, dTraL4,
    List.append_assoc, List.cons_append, List.nil_append, List.singleton_append]

/-- Coarse decomposition of the audio command around the url. -/
theorem audio_coarse (pl : Bool) (out url : String) :
    (audioCase pl out url).data = (audioPre pl out).data ++ '"' :: (url.data ++ ['"']) := by
  simp only [audioCase, audioPre, baseOutput, String.data_append,
    List.append_assoc, List.cons_append, List.nil_append, List.singleton_append]

/-- Coarse decomposition of the video command around the url. -/
theorem video_coarse (pl : Bool) (out url : String) :
    (videoCase pl out url).data =
      (videoPre pl out).data ++ '"' :: (url.data ++ '"' :: (videoSuf out).data) := by
  simp only [videoCase, videoPre, videoSuf, baseOutput, String.data_append, dVidL3,
    List.append_assoc, List.cons_append, List.nil_append, List.singleton_append]

theorem drop_len_append (p t : List Char) (n : Nat) (h : p.length = n) :
    (p ++ t).drop n = t := by
  subst h; exact List.drop_left p t

theorem isPre_append_self (p t : List Char) : isPre p (p ++ t) = true :=
  (isPre_iff p (p ++ t)).2 ⟨t, rfl⟩

theorem afterScheme_https (x : List Char) :
    afterScheme ("https://".data ++ x) = x := rfl

theorem afterScheme_http (x : List Char) :
    afterScheme ("http://".data ++ x) = x := rfl

theorem afterScheme_not_h (c : Char) (l : List Char) (h : c ≠ 'h') :
    afterScheme (c :: l) = c :: l := by
  have hb : ('h' == c) = false := by simp [h.symm]
  unfold afterScheme
  rw [if_neg (by simp [isPre, hb]), if_neg (by simp [isPre, hb])]

theorem afterScheme_none (l : List Char) (h1 : isPre "https://".data l = false)
    (h2 : isPre "http://".data l = false) : afterScheme l = l := by
  unfold afterScheme
  rw [if_neg (by simp [h1]), if_neg (by simp [h2])]

theorem afterScheme_nil : afterScheme ("".data) = "".data := rfl

theorem afterWww_www (x : List Char) : afterWww ("www.".data ++ x) = x := rfl

theorem afterWww_not_w (c : Char) (l : List Char) (h : c ≠ 'w') :
    afterWww (c :: l) = c :: l := by
  have hb : ('w' == c) = false := by simp [h.symm]
  unfold afterWww
  rw [if_neg (by simp [isPre, hb])]

theorem afterWww_none (l : List Char) (h1 : isPre "www.".data l = false) :
    afterWww l = l := by
  unfold afterWww
  rw [if_neg (by simp [h1])]

theorem ytHostRest_youtube (x : List Char) :
    ytHostRest ("youtube.com/".data ++ x) = some x := rfl

theorem ytHostRest_youtube_be (x : List Char) :
    ytHostRest ("youtu.be/".data ++ x) = some x := rfl

theorem biliHostRest_bili (x : List Char) :
    biliHostRest ("bilibili.com/video/".data ++ x) = some x := rfl

theorem pathOk_iff (r : List Char) : pathOk r = true ↔ r ≠ [] ∧ r.all jsDot = true := by
  cases r <;> simp [pathOk]

theorem afterScheme_decomp (l : List Char) :
    ∃ sch, (sch = [] ∨ sch = "http://".data ∨ sch = "https://".data) ∧
      l = sch ++ afterScheme l := by
  by_cases h1 : isPre "https://".data l = true
  · obtain ⟨t, rfl⟩ := (isPre_iff _ _).1 h1
    exact ⟨"https://".data, by simp, by rw [afterScheme_https]⟩
  · by_cases h2 : isPre "http://".data l = true
    · obtain ⟨t, rfl⟩ := (isPre_iff _ _).1 h2
      exact ⟨"http://".data, by simp, by rw [afterScheme_http]⟩
    · refine ⟨[], by simp, ?_⟩
      rw [afterScheme_none l (by simpa using h1) (by simpa using h2)]
      simp

theorem afterWww_decomp (l : List Char) :
    ∃ www, (www = [] ∨ www = "www.".data) ∧ l = www ++ afterWww l := by
  by_cases h1 : isPre "www.".data l = true
  · obtain ⟨t, rfl⟩ := (isPre_iff _ _).1 h1
    exact ⟨"www.".data, by simp, by rw [afterWww_www]⟩
  · refine ⟨[], by simp, ?_⟩
    rw [afterWww_none l (by simpa using h1)]
    simp

theorem ytHostRest_decomp (l r : List Char) (h : ytHostRest l = some r) :
    ∃ host, (host = "youtube.com/".data ∨ host = "youtu.be/".data) ∧ l = host ++ r := by
  by_cases h1 : isPre "youtube.com/".data l = true
  · obtain ⟨t, rfl⟩ := (isPre_iff _ _).1 h1
    rw [ytHostRest_youtube] at h
    injection h with h2
    exact ⟨"youtube.com/".data, by simp, by rw [h2]⟩
  · by_cases h2 : isPre "youtu.be/".data l = true
    · obtain ⟨t, rfl⟩ := (isPre_iff _ _).1 h2
      rw [ytHostRest_youtube_be] at h
      injection h with h3
      exact ⟨"youtu.be/".data, by simp, by rw [h3]⟩
    · exfalso
      unfold ytHostRest at h
      rw [if_neg (by simp [Bool.eq_false_iff.2 (fun hx => h1 hx)]),
        if_neg (by simp [Bool.eq_false_iff.2 (fun hx => h2 hx)])] at h
      exact absurd h (by simp)

theorem biliHostRest_decomp (l r : List Char) (h : biliHostRest l = some r) :
    l = "bilibili.com/video/".data ++ r := by
  by_cases h1 : isPre "bilibili.com/video/".data l = true
  · obtain ⟨t, rfl⟩ := (isPre_iff _ _).1 h1
    rw [biliHostRest_bili] at h
    injection h with h2
    rw [h2]
  · exfalso
    unfold biliHostRest at h
    rw [if_neg (by simp [Bool.eq_false_iff.2 (fun hx => h1 hx)])] at h
    exact absurd h (by simp)

theorem ytMatchL_shape (l : List Char) (h : ytMatchL l = true) : YtShape l := by
  unfold ytMatchL at h
  cases hh : ytHostRest (afterWww (afterScheme l)) with
  | none => rw [hh] at h; exact absurd h (by simp)
  | some r =>
    rw [hh] at h
    obtain ⟨sch, hsch, hl1⟩ := afterScheme_decomp l
    obtain ⟨www, hwww, hl2⟩ := afterWww_decomp (afterScheme l)
    obtain ⟨host, hhost, hl3⟩ := ytHostRest_decomp _ _ hh
    obtain ⟨hne, hall⟩ := (pathOk_iff r).1 h
    exact ⟨sch, www, host, r, hsch, hwww, hhost, hne, hall, by
      rw [hl1, hl2, hl3, List.append_assoc, List.append_assoc]⟩

theorem biliMatchL_shape (l : List Char) (h : biliMatchL l = true) : BiliShape l := by
  unfold biliMatchL at h
  cases hh : biliHostRest (afterWww (afterScheme l)) with
  | none => rw [hh] at h; exact absurd h (by simp)
  | some r =>
    rw [hh] at h
    obtain ⟨sch, hsch, hl1⟩ := afterScheme_decomp l
    obtain ⟨www, hwww, hl2⟩ := afterWww_decomp (afterScheme l)
    have hl3 := biliHostRest_decomp _ _ hh
    obtain ⟨hne, hall⟩ := (pathOk_iff r).1 h
    exact ⟨sch, www, r, hsch, hwww, hne, hall, by
      rw [hl1, hl2, hl3, List.append_assoc, List.append_assoc]⟩

theorem shape_ytMatchL (l : List Char) (h : YtShape l) : ytMatchL l = true := by
  obtain ⟨sch, www, host, rest, hsch, hwww, hhost, hne, hall, rfl⟩ := h
  have hhost1 : ∃ c t, host ++ rest = c :: t ∧ c ≠ 'h' ∧ c ≠ 'w' := by
    rcases hhost with rfl | rfl
    · exact ⟨'y', "outube.com/".data ++ rest, rfl, by decide, by decide⟩
    · exact ⟨'y', "outu.be/".data ++ rest, rfl, by decide, by decide⟩
  have hwr : afterWww (host ++ rest) = host ++ rest := by
    obtain ⟨c, t, hct, _, hcw⟩ := hhost1
    rw [hct]; exact afterWww_not_w c t hcw
  have hsw : afterScheme (www ++ (host ++ rest)) = www ++ (host ++ rest) := by
    rcases hwww with rfl | rfl
    · obtain ⟨c, t, hct, hch, _⟩ := hhost1
      simp only [List.nil_append]
      rw [hct]; exact afterScheme_not_h c t hch
    · exact afterScheme_not_h 'w' _ (by decide)
  have hw : afterWww (afterScheme (sch ++ (www ++ (host ++ rest)))) = host ++ rest := by
    have hs : afterScheme (sch ++ (www ++ (host ++ rest))) = www ++ (host ++ rest) := by
      rcases hsch with rfl | rfl | rfl
      · simpa using hsw
      · rw [afterScheme_http]
      · rw [afterScheme_https]
    rw [hs]
    rcases hwww with rfl | rfl
    · simpa using hwr
    · rw [afterWww_www]
  unfold ytMatchL
  have hfin : ytHostRest (afterWww (afterScheme (sch ++ www ++ host ++ rest))) = some rest := by
    simp only [List.append_assoc]
    rw [hw]
    rcases hhost with rfl | rfl
    · exact ytHostRest_youtube rest
    · exact ytHostRest_youtube_be rest
  rw [hfin]
  exact (pathOk_iff rest).2 ⟨hne, hall⟩

theorem shape_biliMatchL (l : List Char) (h : BiliShape l) : biliMatchL l = true := by
  obtain ⟨sch, www, rest, hsch, hwww, hne, hall, rfl⟩ := h
  have hwr : afterWww ("bilibili.com/video/".data ++ rest) = "bilibili.com/video/".data ++ rest :=
    afterWww_not_w 'b' _ (by decide)
  have hw : afterWww (afterScheme (sch ++ (www ++ ("bilibili.com/video/".data ++ rest)))) =
      "bilibili.com/video/".data ++ rest := by
    have hsw : afterScheme (www ++ ("bilibili.com/video/".data ++ rest)) =
        www ++ ("bilibili.com/video/".data ++ rest) := by
      rcases hwww with rfl | rfl
      · simp only [List.nil_append]
        exact afterScheme_not_h 'b' _ (by decide)
      · exact afterScheme_not_h 'w' _ (by decide)
    have hs : afterScheme (sch ++ (www ++ ("bilibili.com/video/".data ++ rest))) =
        www ++ ("bilibili.com/video/".data ++ rest) := by
      rcases hsch with rfl | rfl | rfl
      · simpa using hsw
      · rw [afterScheme_http]
      · rw [afterScheme_https]
    rw [hs]
    rcases hwww with rfl | rfl
    · simpa using hwr
    · rw [afterWww_www]
  unfold biliMatchL
  have hfin : biliHostRest (afterWww (afterScheme (sch ++ www ++ "bilibili.com/video/".data ++ rest))) =
      some rest := by
    simp only [List.append_assoc]
    rw [hw]
    exact biliHostRest_bili rest
  rw [hfin]
  exact (pathOk_iff rest).2 ⟨hne, hall⟩

/-- The YouTube regex test accepts exactly the urls of the declarative shape. -/

theorem youtubeTest_iff (s : String) : youtubeTest s = true ↔ YtShape s.data :=
  ⟨ytMatchL_shape s.data, shape_ytMatchL s.data⟩

/-- The Bilibili regex test accepts exactly the urls of the declarative shape. -/

theorem bilibiliTest_iff (s : String) : bilibiliTest s = true ↔ BiliShape s.data :=
  ⟨biliMatchL_shape s.data, shape_biliMatchL s.data⟩

/-- A supported url is non-empty and contains no newline character. -/

theorem supported_url_facts (s : String) (h : youtubeTest s = true ∨ bilibiliTest s = true) :
    s.data ≠ [] ∧ '\n' ∉ s.data := by
  have main : ∀ sch www hostrest : List Char,
      (sch = [] ∨ sch = "http://".data ∨ sch = "https://".data) →
      (www = [] ∨ www = "www.".data) →
      hostrest ≠ [] → ('\n' ∉ hostrest) →
      sch ++ www ++ hostrest ≠ [] ∧ '\n' ∉ sch ++ www ++ hostrest := by
    intro sch www hostrest hsch hwww hne hnl
    constructor
    · simp [hne]
    · intro hmem
      rcases List.mem_append.1 hmem with hmem1 | hmem2
      · rcases List.mem_append.1 hmem1 with hs | hw
        · rcases hsch with rfl | rfl | rfl <;> simp_all
        · rcases hwww with rfl | rfl <;> simp_all
      · exact hnl hmem2
  rcases h with h | h
  · obtain ⟨sch, www, host, rest, hsch, hwww, hhost, hne, hall, heq⟩ := ytMatchL_shape s.data h
    rw [heq, List.append_assoc (sch ++ www)]
    have hnl : '\n' ∉ host ++ rest := by
      intro hmem
      rcases List.mem_append.1 hmem with hh | hr
      · rcases hhost with rfl | rfl <;> revert hh <;> decide
      · have := List.all_eq_true.1 hall _ hr
        simp [jsDot] at this
    apply main sch www (host ++ rest) hsch hwww (by rcases hhost with rfl | rfl <;> simp) hnl
  · obtain ⟨sch, www, rest, hsch, hwww, hne, hall, heq⟩ := biliMatchL_shape s.data h
    rw [heq, List.append_assoc (sch ++ www)]
    have hnl : '\n' ∉ "bilibili.com/video/".data ++ rest := by
      intro hmem
      rcases List.mem_append.1 hmem with hh | hr
      · revert hh; decide
      · have := List.all_eq_true.1 hall _ hr
        simp [jsDot] at this
    apply main sch www _ hsch hwww (by simp) hnl

/-- Declarative reading of one match position of `[&?]list=([^&]+)`. -/
theorem listAt_iff (l : List Char) :
    listAt l = true ↔ ∃ c d b, (c = '&' ∨ c = '?') ∧ d ≠ '&' ∧
      l = c :: ('l' :: 'i' :: 's' :: 't' :: '=' :: d :: b) := by
  cases l with
  | nil => simp [listAt]
  | cons c rest =>
    simp only [listAt, Bool.and_eq_true, Bool.or_eq_true, beq_iff_eq]
    constructor
    · rintro ⟨⟨hc, hpre⟩, hd⟩
      obtain ⟨t, rfl⟩ := (isPre_iff _ _).1 hpre
      rw [show List.drop 5 ("list=".data ++ t) = t from drop_len_append _ _ _ rfl] at hd
      cases t with
      | nil => exact absurd hd (by simp)
      | cons d b =>
        simp only [Bool.not_eq_true', beq_eq_false_iff_ne] at hd
        exact ⟨c, d, b, hc, hd, rfl⟩
    · rintro ⟨c2, d, b, hc2, hd, heq⟩
      injection heq with h1 h2
      subst h1
      subst h2
      refine ⟨⟨hc2, (isPre_iff _ _).2 ⟨d :: b, rfl⟩⟩, ?_⟩
      simp [hd]

theorem hasListParam_iff (l : List Char) : hasListParam l = true ↔ HasListShape l := by
  induction l with
  | nil =>
    simp only [hasListParam, HasListShape]
    constructor
    · intro h
      exact absurd h (by simp)
    · rintro ⟨a, c, d, b, hc, hd, h⟩
      cases a <;> simp_all
  | cons x xs ih =>
    simp only [hasListParam, Bool.or_eq_true, ih, listAt_iff]
    constructor
    · rintro (⟨c, d, b, hc, hd, heq⟩ | ⟨a, c, d, b, hc, hd, heq⟩)
      · exact ⟨[], c, d, b, hc, hd, by simp [heq]⟩
      · exact ⟨x :: a, c, d, b, hc, hd, by simp [heq]⟩
    · rintro ⟨a, c, d, b, hc, hd, heq⟩
      cases a with
      | nil =>
        left
        injection heq with h1 h2
        exact ⟨c, d, b, hc, hd, by rw [← h1, ← h2]⟩
      | cons y ys =>
        right
        injection heq with h1 h2
        exact ⟨ys, c, d, b, hc, hd, h2⟩

/-- The playlist test in terms of the declarative shape. -/
theorem playlistTest_iff (s : String) : playlistTest s = true ↔ HasListShape s.data :=
  hasListParam_iff s.data

theorem generatedCommand_pos (url : String) (ty : DownloadType) (out : String)
    (pl : Bool) (hurl : url ≠ "") :
    generatedCommand url ty out (some true) pl =
      match ty with
      | .video => videoCase pl out url
      | .audio => audioCase pl out url
      | .subtitles => subtitlesCase pl out url
      | .transcribe => transcribeCase pl out url := by
  unfold generatedCommand
  rw [if_neg (by simp [hurl])]

theorem generatedCommand_empty (url : String) (ty : DownloadType) (out : String)
    (isValid : Option Bool) (pl : Bool) (h : isValid ≠ some true ∨ url = "") :
    generatedCommand url ty out isValid pl = "" := by
  unfold generatedCommand
  rw [if_pos h]

theorem occursStr_iff (u s : String) (hu : u.data ≠ []) :
    occursStr u s ↔ countOcc u.data s.data ≠ 0 := by
  rw [countOcc_ne_zero_iff _ _ hu]
  constructor
  · rintro ⟨a, b, rfl⟩
    exact ⟨a.data, b.data, by simp⟩
  · rintro ⟨a, b, h⟩
    refine ⟨⟨a⟩, ⟨b⟩, ?_⟩
    apply String.ext
    simpa using h

theorem not_occursStr (u s : String) (hu : u.data ≠ [])
    (h : countOcc u.data s.data = 0) : ¬ occursStr u s := by
  rw [occursStr_iff u s hu]
  simp [h]

theorem occursStr_of_count (u s : String) (hu : u.data ≠ [])
    (h : countOcc u.data s.data ≠ 0) : occursStr u s :=
  (occursStr_iff u s hu).2 h

/-! ### Occurrence counts over the command templates

For any needle `u` that contains no space, quote or slash (the boundary
characters of the canonical split forms), the number of occurrences of `u`
in a generated command is the sum of its occurrences in the individual
chunks and interpolated values. -/

theorem countOcc_cons_boundary (u : List Char) (c : Char) (hu : u ≠ []) (hc : c ∉ u)
    (Y : List Char) : countOcc u (c :: Y) = countOcc u Y := by
  have h := countOcc_split u c hu hc [] Y
  simp only [List.nil_append] at h
  rw [h]
  simp [countOcc]

theorem countOcc_audioCase (u : List Char) (pl : Bool) (out url : String)
    (hu : u ≠ []) (hsp : ' ' ∉ u) (hq : '"' ∉ u) (hsl : '/' ∉ u) :
    countOcc u (audioCase pl out url).data =
      countOcc u "yt-dlp".data + countOcc u (playlistFlag pl).data + countOcc u audP1.data +
      countOcc u "-o ".data + countOcc u out.data +
      countOcc u "%(title)s/%(title)s.%(ext)s".data + countOcc u " ".data +
      countOcc u url.data := by
  rw [audio_flat]
  rw [countOcc_split u ' ' hu hsp, countOcc_split u ' ' hu hsp, countOcc_split u ' ' hu hsp,
    countOcc_split u '"' hu hq, countOcc_split u '/' hu hsl, countOcc_split u '"' hu hq,
    countOcc_split u '"' hu hq, countOcc_split u '"' hu hq]
  simp [countOcc]
  omega

theorem countOcc_videoCase (u : List Char) (pl : Bool) (out url : String)
    (hu : u ≠ []) (hsp : ' ' ∉ u) (hq : '"' ∉ u) (hsl : '/' ∉ u) :
    countOcc u (videoCase pl out url).data =
      countOcc u vidP0.data + countOcc u (playlistFlag pl).data + countOcc u vidP1.data +
      countOcc u "-o ".data + countOcc u out.data +
      countOcc u "%(title)s/%(title)s.%(ext)s".data + countOcc u " ".data +
      countOcc u url.data + countOcc u vidP3.data + countOcc u out.data +
      countOcc u vidP4.data + countOcc u out.data + countOcc u vidP5.data := by
  rw [video_flat]
  rw [countOcc_split u ' ' hu hsp, countOcc_split u ' ' hu hsp, countOcc_split u ' ' hu hsp,
    countOcc_split u '"' hu hq, countOcc_split u '/' hu hsl, countOcc_split u '"' hu hq,
    countOcc_split u '"' hu hq, countOcc_split u '"' hu hq, countOcc_split u '"' hu hq,
    countOcc_split u '/' hu hsl, countOcc_split u '"' hu hq, countOcc_split u '/' hu hsl]
  omega

theorem countOcc_subtitlesCase (u : List Char) (pl : Bool) (out url : String)
    (hu : u ≠ []) (hsp : ' ' ∉ u) (hq : '"' ∉ u) (hsl : '/' ∉ u) :
    countOcc u (subtitlesCase pl out url).data =
      countOcc u vidP0.data + countOcc u (playlistFlag pl).data + countOcc u url.data +
      countOcc u " -o ".data + countOcc u out.data + countOcc u subP3.data +
      countOcc u out.data + countOcc u subP4.data + countOcc u (playlistFlag pl).data +
      countOcc u subP5.data + countOcc u out.data + countOcc u subP6.data +
      countOcc u url.data + countOcc u subP7.data + countOcc u out.data +
      countOcc u subP8.data := by
  rw [subtitles_flat]
  rw [countOcc_split u ' ' hu hsp, countOcc_split u ' ' hu hsp]
  rw [countOcc_cons_boundary u '"' hu hq]
  rw [countOcc_split u '"' hu hq, countOcc_split u '"' hu hq, countOcc_split u '/' hu hsl,
    countOcc_split u '"' hu hq, countOcc_split u '/' hu hsl, countOcc_split u ' ' hu hsp,
    countOcc_split u ' ' hu hsp, countOcc_split u '"' hu hq, countOcc_split u '/' hu hsl,
    countOcc_split u '"' hu hq, countOcc_split u '"' hu hq, countOcc_split u '"' hu hq,
    countOcc_split u '/' hu hsl]
  omega

theorem countOcc_transcribeCase (u : List Char) (pl : Bool) (out url : String)
    (hu : u ≠ []) (hsp : ' ' ∉ u) (hq : '"' ∉ u) (hsl : '/' ∉ u) :
    countOcc u (transcribeCase pl out url).data =
      countOcc u traP0.data + countOcc u (playlistFlag pl).data + countOcc u url.data +
      countOcc u " -o ".data + countOcc u out.data + countOcc u traP3.data +
      countOcc u out.data + countOcc u traP4.data := by
  rw [transcribe_flat]
  rw [countOcc_split u ' ' hu hsp, countOcc_split u ' ' hu hsp]
  rw [countOcc_cons_boundary u '"' hu hq]
  rw [countOcc_split u '"' hu hq, countOcc_split u '"' hu hq, countOcc_split u '/' hu hsl,
    countOcc_split u '"' hu hq, countOcc_split u '/' hu hsl]
  omega

/-! ### Occurrences of the playlist flags in the generated commands

For a needle that occurs in none of the literal chunks and in neither
interpolated value, the occurrence count of a command reduces to its count
in the interpolated `playlistFlag`. -/

theorem countOcc_videoCase_flagOnly (u : List Char) (pl : Bool) (out url : String)
    (hu : u ≠ []) (hsp : ' ' ∉ u) (hq : '"' ∉ u) (hsl : '/' ∉ u)
    (h0 : countOcc u vidP0.data = 0) (h1 : countOcc u vidP1.data = 0)
    (h3 : countOcc u vidP3.data = 0) (h4 : countOcc u vidP4.data = 0)
    (h5 : countOcc u vidP5.data = 0)
    (hU : countOcc u url.data = 0) (hO : countOcc u out.data = 0)
    (ho : countOcc u "-o ".data = 0)
    (ht : countOcc u "%(title)s/%(title)s.%(ext)s".data = 0)
    (hspc : countOcc u " ".data = 0) :
    countOcc u (videoCase pl out url).data = countOcc u (playlistFlag pl).data := by
  rw [countOcc_videoCase u pl out url hu hsp hq hsl, h0, h1, h3, h4, h5, hU, hO, ho, ht, hspc]
  omega

theorem countOcc_audioCase_flagOnly (u : List Char) (pl : Bool) (out url : String)
    (hu : u ≠ []) (hsp : ' ' ∉ u) (hq : '"' ∉ u) (hsl : '/' ∉ u)
    (hyt : countOcc u "yt-dlp".data = 0) (ha1 : countOcc u audP1.data = 0)
    (hU : countOcc u url.data = 0) (hO : countOcc u out.data = 0)
    (ho : countOcc u "-o ".data = 0)
    (ht : countOcc u "%(title)s/%(title)s.%(ext)s".data = 0)
    (hspc : countOcc u " ".data = 0) :
    countOcc u (audioCase pl out url).data = countOcc u (playlistFlag pl).data := by
  rw [countOcc_audioCase u pl out url hu hsp hq hsl, hyt, ha1, hU, hO, ho, ht, hspc]
  omega

theorem countOcc_subtitlesCase_flagOnly (u : List Char) (pl : Bool) (out url : String)
    (hu : u ≠ []) (hsp : ' ' ∉ u) (hq : '"' ∉ u) (hsl : '/' ∉ u)
    (h0 : countOcc u vidP0.data = 0)
    (h3 : countOcc u subP3.data = 0) (h4 : countOcc u subP4.data = 0)
    (h5 : countOcc u subP5.data = 0) (h6 : countOcc u subP6.data = 0)
    (h7 : countOcc u subP7.data = 0) (h8 : countOcc u subP8.data = 0)
    (hU : countOcc u url.data = 0) (hO : countOcc u out.data = 0)
    (ho : countOcc u " -o ".data = 0) :
    countOcc u (subtitlesCase pl out url).data = 2 * countOcc u (playlistFlag pl).data := by
  rw [countOcc_subtitlesCase u pl out url hu hsp hq hsl, h0, h3, h4, h5, h6, h7, h8, hU, hO, ho]
  omega

theorem countOcc_transcribeCase_flagOnly (u : List Char) (pl : Bool) (out url : String)
    (hu : u ≠ []) (hsp : ' ' ∉ u) (hq : '"' ∉ u) (hsl : '/' ∉ u)
    (h0 : countOcc u traP0.data = 0)
    (h3 : countOcc u traP3.data = 0) (h4 : countOcc u traP4.data = 0)
    (hU : countOcc u url.data = 0) (hO : countOcc u out.data = 0)
    (ho : countOcc u " -o ".data = 0) :
    countOcc u (transcribeCase pl out url).data = countOcc u (playlistFlag pl).data := by
  rw [countOcc_transcribeCase u pl out url hu hsp hq hsl, h0, h3, h4, hU, hO, ho]
  omega

theorem yesCount_video (pl : Bool) (out url : String)
    (hU : countOcc "--yes-playlist".data url.data = 0)
    (hO : countOcc "--yes-playlist".data out.data = 0) :
    countOcc "--yes-playlist".data (videoCase pl out url).data = if pl then 1 else 0 := by
  rw [countOcc_videoCase_flagOnly "--yes-playlist".data pl out url (by decide) (by decide)
    (by decide) (by decide)
    (countOcc_zero_of_hasSub _ _ (by decide) (by decide))
    (countOcc_zero_of_hasSub _ _ (by decide) (by decide))
    (countOcc_zero_of_hasSub _ _ (by decide) (by decide))
    (countOcc_zero_of_hasSub _ _ (by decide) (by decide))
    (countOcc_zero_of_hasSub _ _ (by decide) (by decide))
    hU hO (by decide) (by decide) (by decide)]
  cases pl <;> decide

theorem noCount_video (pl : Bool) (out url : String)
    (hU : countOcc "--no-playlist".data url.data = 0)
    (hO : countOcc "--no-playlist".data out.data = 0) :
    countOcc "--no-playlist".data (videoCase pl out url).data = if pl then 0 else 1 := by
  rw [countOcc_videoCase_flagOnly "--no-playlist".data pl out url (by decide) (by decide)
    (by decide) (by decide)
    (countOcc_zero_of_hasSub _ _ (by decide) (by decide))
    (countOcc_zero_of_hasSub _ _ (by decide) (by decide))
    (countOcc_zero_of_hasSub _ _ (by decide) (by decide))
    (countOcc_zero_of_hasSub _ _ (by decide) (by decide))
    (countOcc_zero_of_hasSub _ _ (by decide) (by decide))
    hU hO (by decide) (by decide) (by decide)]
  cases pl <;> decide

theorem yesCount_audio (pl : Bool) (out url : String)
    (hU : countOcc "--yes-playlist".data url.data = 0)
    (hO : countOcc "--yes-playlist".data out.data = 0) :
    countOcc "--yes-playlist".data (audioCase pl out url).data = if pl then 1 else 0 := by
  rw [countOcc_audioCase_flagOnly "--yes-playlist".data pl out url (by decide) (by decide)
    (by decide) (by decide) (by decide)
    (countOcc_zero_of_hasSub _ _ (by decide) (by decide))
    hU hO (by decide) (by decide) (by decide)]
  cases pl <;> decide

theorem noCount_audio (pl : Bool) (out url : String)
    (hU : countOcc "--no-playlist".data url.data = 0)
    (hO : countOcc "--no-playlist".data out.data = 0) :
    countOcc "--no-playlist".data (audioCase pl out url).data = if pl then 0 else 1 := by
  rw [countOcc_audioCase_flagOnly "--no-playlist".data pl out url (by decide) (by decide)
    (by decide) (by decide) (by decide)
    (countOcc_zero_of_hasSub _ _ (by decide) (by decide))
    hU hO (by decide) (by decide) (by decide)]
  cases pl <;> decide

theorem yesCount_subtitles (pl : Bool) (out url : String)
    (hU : countOcc "--yes-playlist".data url.data = 0)
    (hO : countOcc "--yes-playlist".data out.data = 0) :
    countOcc "--yes-playlist".data (subtitlesCase pl out url).data = if pl then 2 else 0 := by
  rw [countOcc_subtitlesCase_flagOnly "--yes-playlist".data pl out url (by decide) (by decide)
    (by decide) (by decide)
    (countOcc_zero_of_hasSub _ _ (by decide) (by decide))
    (countOcc_zero_of_hasSub _ _ (by decide) (by decide))
    (countOcc_zero_of_hasSub _ _ (by decide) (by decide))
    (countOcc_zero_of_hasSub _ _ (by decide) (by decide))
    (countOcc_zero_of_hasSub _ _ (by decide) (by decide))
    (countOcc_zero_of_hasSub _ _ (by decide) (by decide))
    (countOcc_zero_of_hasSub _ _ (by decide) (by decide))
    hU hO (by decide)]
  cases pl <;> decide

theorem noCount_subtitles (pl : Bool) (out url : String)
    (hU : countOcc "--no-playlist".data url.data = 0)
    (hO : countOcc "--no-playlist".data out.data = 0) :
    countOcc "--no-playlist".data (subtitlesCase pl out url).data = if pl then 0 else 2 := by
  rw [countOcc_subtitlesCase_flagOnly "--no-playlist".data pl out url (by decide) (by decide)
    (by decide) (by decide)
    (countOcc_zero_of_hasSub _ _ (by decide) (by decide))
    (countOcc_zero_of_hasSub _ _ (by decide) (by decide))
    (countOcc_zero_of_hasSub _ _ (by decide) (by decide))
    (countOcc_zero_of_hasSub _ _ (by decide) (by decide))
    (countOcc_zero_of_hasSub _ _ (by decide) (by decide))
    (countOcc_zero_of_hasSub _ _ (by decide) (by decide))
    (countOcc_zero_of_hasSub _ _ (by decide) (by decide))
    hU hO (by decide)]
  cases pl <;> decide

theorem yesCount_transcribe (pl : Bool) (out url : String)
    (hU : countOcc "--yes-playlist".data url.data = 0)
    (hO : countOcc "--yes-playlist".data out.data = 0) :
    countOcc "--yes-playlist".data (transcribeCase pl out url).data = if pl then 1 else 0 := by
  rw [countOcc_transcribeCase_flagOnly "--yes-playlist".data pl out url (by decide) (by decide)
    (by decide) (by decide)
    (countOcc_zero_of_hasSub _ _ (by decide) (by decide))
    (countOcc_zero_of_hasSub _ _ (by decide) (by decide))
    (countOcc_zero_of_hasSub _ _ (by decide) (by decide))
    hU hO (by decide)]
  cases pl <;> decide

theorem noCount_transcribe (pl : Bool) (out url : String)
    (hU : countOcc "--no-playlist".data url.data = 0)
    (hO : countOcc "--no-playlist".data out.data = 0) :
    countOcc "--no-playlist".data (transcribeCase pl out url).data = if pl then 0 else 1 := by
  rw [countOcc_transcribeCase_flagOnly "--no-playlist".data pl out url (by decide) (by decide)
    (by decide) (by decide)
    (countOcc_zero_of_hasSub _ _ (by decide) (by decide))
    (countOcc_zero_of_hasSub _ _ (by decide) (by decide))
    (countOcc_zero_of_hasSub _ _ (by decide) (by decide))
    hU hO (by decide)]
  cases pl <;> decide

/-! ### Characterization of the progress matchers -/

theorem takeWhile_dropWhile_append (p : Char → Bool) (l : List Char) :
    l.takeWhile p ++ l.dropWhile p = l :=
  List.takeWhile_append_dropWhile p l

theorem takeWhile_all (p : Char → Bool) (l : List Char) : (l.takeWhile p).all p = true := by
  induction l with
  | nil => rfl
  | cons a t ih =>
    cases h : p a with
    | false => simp [List.takeWhile_cons, h]
    | true => simp [List.takeWhile_cons, h, ih]

theorem takeWhile_append_cons (p : Char → Bool) (D : List Char) (c : Char) (t : List Char)
    (hD : D.all p = true) (hc : p c = false) :
    (D ++ c :: t).takeWhile p = D := by
  induction D with
  | nil => simp [List.takeWhile_cons, hc]
  | cons a as ih =>
    simp only [List.all_cons, Bool.and_eq_true] at hD
    simp [List.takeWhile_cons, hD.1, ih hD.2]

theorem dropWhile_append_cons (p : Char → Bool) (D : List Char) (c : Char) (t : List Char)
    (hD : D.all p = true) (hc : p c = false) :
    (D ++ c :: t).dropWhile p = c :: t := by
  induction D with
  | nil => simp [List.dropWhile_cons, hc]
  | cons a as ih =>
    simp only [List.all_cons, Bool.and_eq_true] at hD
    simp [List.dropWhile_cons, hD.1, ih hD.2]

theorem jsWs_of_jsDigit (c : Char) (h : jsDigit c = true) : jsWs c = false := by
  simp only [jsDigit, Bool.and_eq_true, decide_eq_true_eq] at h
  simp only [jsWs, Bool.or_eq_false_iff, Bool.and_eq_false_iff, decide_eq_false_iff_not]
  omega

theorem nonempty_head_not_ws (l : List Char) (q : ℚ) (h : NumShapeAt l q) :
    ∃ d r, l = d :: r ∧ jsWs d = false := by
  rcases h with ⟨D, rest, hD, hall, heq, _⟩ | ⟨D, F, rest, hD, _, hall, _, heq, _⟩ <;>
  · cases D with
    | nil => exact absurd rfl hD
    | cons d D2 =>
      simp only [List.all_cons, Bool.and_eq_true] at hall
      exact ⟨d, _, by rw [heq]; rfl, jsWs_of_jsDigit d hall.1⟩

theorem numShapeAt_iff (l : List Char) (q : ℚ) : numPct l = some q ↔ NumShapeAt l q := by
  constructor
  · intro h
    unfold numPct at h
    split at h
    · exact absurd h (by simp)
    · rename_i hD
      split at h
      · rename_i x heq
        injection h with h
        refine Or.inl ⟨l.takeWhile jsDigit, x, ?_, takeWhile_all jsDigit l, ?_, h.symm⟩
        · intro hnil
          exact hD (by simp [hnil])
        · conv_lhs => rw [← takeWhile_dropWhile_append jsDigit l]
          rw [heq]
      · rename_i r2 heq
        unfold fracPart at h
        split at h
        · exact absurd h (by simp)
        · rename_i hF
          split at h
          · rename_i y heq2
            injection h with h
            refine Or.inr ⟨l.takeWhile jsDigit, r2.takeWhile jsDigit, y, ?_, ?_,
              takeWhile_all jsDigit l, takeWhile_all jsDigit r2, ?_, h.symm⟩
            · intro hnil
              exact hD (by simp [hnil])
            · intro hnil
              exact hF (by simp [hnil])
            · conv_lhs => rw [← takeWhile_dropWhile_append jsDigit l]
              rw [heq]
              conv_lhs => rw [← takeWhile_dropWhile_append jsDigit r2]
              rw [heq2]
          · exact absurd h (by simp)
      · exact absurd h (by simp)
  · rintro (⟨D, rest, hD, hall, rfl, rfl⟩ | ⟨D, F, rest, hD, hF, hallD, hallF, rfl, rfl⟩)
    · have h1 : (D ++ '%' :: rest).takeWhile jsDigit = D :=
        takeWhile_append_cons jsDigit D '%' rest hall (by decide)
      have h2 : (D ++ '%' :: rest).dropWhile jsDigit = '%' :: rest :=
        dropWhile_append_cons jsDigit D '%' rest hall (by decide)
      unfold numPct
      rw [h1, h2, if_neg (by simp [hD])]
      rfl
    · have h1 : (D ++ '.' :: (F ++ '%' :: rest)).takeWhile jsDigit = D :=
        takeWhile_append_cons jsDigit D '.' (F ++ '%' :: rest) hallD (by decide)
      have h2 : (D ++ '.' :: (F ++ '%' :: rest)).dropWhile jsDigit = '.' :: (F ++ '%' :: rest) :=
        dropWhile_append_cons jsDigit D '.' (F ++ '%' :: rest) hallD (by decide)
      have h3 : (F ++ '%' :: rest).takeWhile jsDigit = F :=
        takeWhile_append_cons jsDigit F '%' rest hallF (by decide)
      have h4 : (F ++ '%' :: rest).dropWhile jsDigit = '%' :: rest :=
        dropWhile_append_cons jsDigit F '%' rest hallF (by decide)
      unfold numPct
      rw [h1, h2, if_neg (by simp [hD])]
      show fracPart D (F ++ '%' :: rest) = some (ratOf D F)
      unfold fracPart
      rw [h3, h4, if_neg (by simp [hF])]
      rfl

theorem primShapeAt_iff (l : List Char) (q : ℚ) : primAt l = some q ↔ PrimShapeAt l q := by
  constructor
  · intro h
    unfold primAt at h
    split at h
    · rename_i hpre
      obtain ⟨t, rfl⟩ := (isPre_iff _ _).1 hpre
      rw [drop_len_append "[progress]".data t 10 rfl] at h
      split at h
      · exact absurd h (by simp)
      · rename_i hW
        refine ⟨t.takeWhile jsWs, t.dropWhile jsWs, ?_, takeWhile_all jsWs t, ?_,
          (numShapeAt_iff _ _).1 h⟩
        · intro hnil
          exact hW (by simp [hnil])
        · rw [takeWhile_dropWhile_append jsWs t]
    · exact absurd h (by simp)
  · rintro ⟨w, rest, hw, hwall, rfl, hnum⟩
    obtain ⟨d, r2, hr, hd⟩ := nonempty_head_not_ws rest q hnum
    have h1 : (w ++ rest).takeWhile jsWs = w := by
      rw [hr]; exact takeWhile_append_cons jsWs w d r2 hwall hd
    have h2 : (w ++ rest).dropWhile jsWs = rest := by
      rw [hr]; exact dropWhile_append_cons jsWs w d r2 hwall hd
    unfold primAt
    rw [if_pos ((isPre_iff _ _).2 ⟨w ++ rest, rfl⟩),
      drop_len_append "[progress]".data (w ++ rest) 10 rfl, h1, h2, if_neg (by simp [hw])]
    exact (numShapeAt_iff _ _).2 hnum

theorem numPct_none_iff (l : List Char) : numPct l = none ↔ ∀ r, ¬ NumShapeAt l r := by
  constructor
  · intro h r hr
    have h2 := (numShapeAt_iff l r).2 hr
    rw [h] at h2
    exact Option.noConfusion h2
  · intro h
    cases hf : numPct l with
    | none => rfl
    | some r => exact absurd ((numShapeAt_iff l r).1 hf) (h r)

theorem primAt_none_iff (l : List Char) : primAt l = none ↔ ∀ r, ¬ PrimShapeAt l r := by
  constructor
  · intro h r hr
    have h2 := (primShapeAt_iff l r).2 hr
    rw [h] at h2
    exact Option.noConfusion h2
  · intro h
    cases hf : primAt l with
    | none => rfl
    | some r => exact absurd ((primShapeAt_iff l r).1 hf) (h r)

theorem scanFirst_some_iff (f : List Char → Option ℚ) (l : List Char) (q : ℚ) :
    scanFirst f l = some q ↔ ∃ n, f (l.drop n) = some q ∧ ∀ m, m < n → f (l.drop m) = none := by
  induction l with
  | nil =>
    simp only [scanFirst, List.drop_nil]
    constructor
    · intro h
      exact ⟨0, h, fun m hm => absurd hm (Nat.not_lt_zero m)⟩
    · rintro ⟨n, hn, _⟩
      exact hn
  | cons c t ih =>
    simp only [scanFirst]
    cases hf : f (c :: t) with
    | some r =>
      constructor
      · intro h
        exact ⟨0, by simpa [hf] using h, fun m hm => absurd hm (Nat.not_lt_zero m)⟩
      · rintro ⟨n, hn, hm⟩
        cases n with
        | zero =>
          rw [List.drop_zero] at hn
          rw [hf] at hn
          simpa using hn
        | succ k =>
          have h0 := hm 0 (Nat.succ_pos k)
          rw [List.drop_zero, hf] at h0
          exact Option.noConfusion h0
    | none =>
      rw [ih]
      constructor
      · rintro ⟨n, hn, hm⟩
        refine ⟨n + 1, by simpa using hn, ?_⟩
        intro m hlt
        cases m with
        | zero => simpa using hf
        | succ k => simpa using hm k (by omega)
      · rintro ⟨n, hn, hm⟩
        cases n with
        | zero =>
          rw [List.drop_zero, hf] at hn
          exact Option.noConfusion hn
        | succ k =>
          refine ⟨k, by simpa using hn, ?_⟩
          intro m hlt
          have := hm (m + 1) (by omega)
          simpa using this

theorem scanFirst_none_iff (f : List Char → Option ℚ) (l : List Char) :
    scanFirst f l = none ↔ ∀ n, f (l.drop n) = none := by
  induction l with
  | nil =>
    simp only [scanFirst, List.drop_nil]
    constructor
    · intro h n
      exact h
    · intro h
      exact h 0
  | cons c t ih =>
    simp only [scanFirst]
    cases hf : f (c :: t) with
    | some r =>
      constructor
      · intro h
        simp at h
      · intro h
        have := h 0
        rw [List.drop_zero, hf] at this
        exact Option.noConfusion this
    | none =>
      rw [ih]
      constructor
      · intro h n
        cases n with
        | zero => simpa using hf
        | succ k => simpa using h k
      · intro h n
        have := h (n + 1)
        simpa using this

theorem primShape_drop_numShape (l : List Char) (r : ℚ) (h : PrimShapeAt l r) :
    ∃ m, NumShapeAt (l.drop m) r := by
  obtain ⟨w, rest, _, _, heq, hnum⟩ := h
  refine ⟨("[progress]".data ++ w).length, ?_⟩
  rw [heq, ← List.append_assoc, List.drop_left]
  exact hnum

/-! ### First-occurrence replacement and run events -/

theorem repFirst_spec (u v : List Char) (hu : u ≠ []) :
    ∀ l : List Char, hasSub u l = true →
      ∃ a b : List Char, l = a ++ u ++ b ∧ repFirst u v l = a ++ v ++ b ∧
        ∀ a2 b2 : List Char, l = a2 ++ u ++ b2 → a.length ≤ a2.length := by
  intro l
  induction l with
  | nil =>
    intro h
    cases u with
    | nil => exact absurd rfl hu
    | cons x xs => simp [hasSub, isPre] at h
  | cons c l ih =>
    intro h
    cases hp : isPre u (c :: l) with
    | true =>
      obtain ⟨t, ht⟩ := (isPre_iff _ _).1 hp
      refine ⟨[], t, by simpa using ht, ?_, fun a2 b2 _ => Nat.zero_le _⟩
      unfold repFirst
      rw [if_pos hp, ht, drop_len_append u t u.length rfl]
      simp
    | false =>
      have h2 : hasSub u l = true := by
        unfold hasSub at h
        rw [hp] at h
        simpa using h
      obtain ⟨a, b, hl, hr, hmin⟩ := ih h2
      refine ⟨c :: a, b, by simp [hl], ?_, ?_⟩
      · unfold repFirst
        rw [if_neg (by simp [hp]), hr]
        simp
      · rintro a2 b2 heq
        cases a2 with
        | nil =>
          have h3 : isPre u (c :: l) = true := by
            refine (isPre_iff _ _).2 ⟨b2, ?_⟩
            simpa using heq
          rw [hp] at h3
          exact absurd h3 (by simp)
        | cons c2 a2t =>
          simp only [List.cons_append] at heq
          injection heq with h4 h5
          simp only [List.length_cons]
          exact Nat.succ_le_succ (hmin a2t b2 h5)

theorem runEvents_append (l1 l2 : List PEv) :
    runEvents (l1 ++ l2) = runEvents l1 ++ runEvents l2 := by
  induction l1 with
  | nil => simp [runEvents]
  | cons e t ih => simp [runEvents, ih]

theorem emitFor_not_complete (e : PEv) (he : isClose e = false) :
    ∀ x ∈ emitFor e, isComplete x = false := by
  cases e with
  | out d =>
    intro x hx
    simp only [emitFor, List.mem_cons] at hx
    rcases hx with rfl | hx
    · rfl
    · cases hp : extractProgress d with
      | none =>
        rw [hp] at hx
        simp at hx
      | some q =>
        rw [hp] at hx
        simp only [List.mem_singleton] at hx
        subst hx
        rfl
  | err d =>
    intro x hx
    simp only [emitFor, List.mem_singleton] at hx
    subst hx
    rfl
  | close code => simp [isClose] at he

theorem runEvents_not_complete (l : List PEv) (h : ∀ e ∈ l, isClose e = false) :
    ∀ x ∈ runEvents l, isComplete x = false := by
  induction l with
  | nil => simp [runEvents]
  | cons e t ih =>
    intro x hx
    simp only [runEvents, List.mem_append] at hx
    rcases hx with hx | hx
    · exact emitFor_not_complete e (h e (by simp)) x hx
    · exact ih (fun e2 he2 => h e2 (by simp [he2])) x hx

/-! ### The scripts render to the generated command text -/

theorem dTraL0s : traL0.data = tsAssign.data ++ " && ".data ++ tsTouch.data ++
    " && \\\n".data ++ traEcho1.data ++ " && \\\n".data ++ "yt-dlp ".data := by decide

theorem dTraL3s : traL3.data = traYtTail.data ++ " && \\\n".data ++ "for f in \"".data := by
  decide

theorem dTraL4s : traL4.data = traForTail.data ++ " && \\\n".data ++ traEcho2.data ++
    " && ".data ++ tsRm.data := by decide

theorem dVidL0s : vidL0.data = tsAssign.data ++ " && ".data ++ tsTouch.data ++
    " && \\\n".data ++ "yt-dlp ".data := by decide

theorem dSubL3s : subL3.data = subYtTail.data ++ " && \\\n".data ++ subEcho1.data ++
    " && \\\n".data ++ "found_subs=false".data ++ "; \\\n".data ++ "for f in \"".data := by
  decide

theorem dSubL4s : subL4.data = subForTail.data ++ "; \\\n".data ++ "if ".data ++
    subCond.data ++ "; then \\\n  ".data ++ subEchoWarn.data ++ " && \\\n  ".data ++
    "yt-dlp ".data := by decide

theorem dSubL7s : subL7.data = "\"".data ++ " && \\\n  ".data ++ "for f in \"".data := by
  decide

theorem dSubL8s : subL8.data = subWavTail.data ++ " && \\\n  ".data ++ subEchoOk.data ++
    "; \\\nelse \\\n  ".data ++ subEchoElse.data ++ "; \\\nfi".data ++ " && ".data ++
    tsRm.data := by decide

theorem render_transcribe (pl : Bool) (out url : String) :
    renderSh (transcribeScript pl out url) = transcribeCase pl out url := by
  apply String.ext
  simp only [transcribeScript, renderSh, transcribeCase, ytdlpTra, forTra,
    String.data_append, dTraL0s, dTraL3s, dTraL4s, List.append_assoc, List.cons_append,
    List.nil_append]

theorem render_subtitles (pl : Bool) (out url : String) :
    renderSh (subtitlesScript pl out url) = subtitlesCase pl out url := by
  apply String.ext
  simp only [subtitlesScript, subIf, renderSh, subtitlesCase, ytdlpSub, forSub, ytdlpWav,
    forWav, String.data_append, dVidL0s, dSubL3s, dSubL4s, dSubL7s, dSubL8s,
    subL5, subL6, List.append_assoc, List.cons_append, List.nil_append]

/-! ### Distinctness of the simple commands appearing in the traces -/

theorem str_ne_of_head (a b : String) (h : a.data.head? ≠ b.data.head?) : a ≠ b := by
  intro he
  exact h (by rw [he])

theorem tsTouch_ne_tsAssign : tsTouch ≠ tsAssign := by decide

theorem tsTouch_ne_tsRm : tsTouch ≠ tsRm := by decide

theorem tsRm_ne_tsAssign : tsRm ≠ tsAssign := by decide

theorem tsRm_ne_tsTouch : tsRm ≠ tsTouch := by decide

theorem tsRm_ne_traEcho1 : tsRm ≠ traEcho1 := by decide

theorem tsRm_ne_traEcho2 : tsRm ≠ traEcho2 := by decide

theorem tsRm_ne_subEcho1 : tsRm ≠ subEcho1 := by decide

theorem tsRm_ne_found : tsRm ≠ "found_subs=false" := by decide

theorem tsRm_ne_subCond : tsRm ≠ subCond := by decide

theorem tsRm_ne_subEchoWarn : tsRm ≠ subEchoWarn := by decide

theorem tsRm_ne_subEchoOk : tsRm ≠ subEchoOk := by decide

theorem tsRm_ne_subEchoElse : tsRm ≠ subEchoElse := by decide

theorem tsTouch_ne_subCond : tsTouch ≠ subCond := by decide

theorem tsTouch_ne_subEchoWarn : tsTouch ≠ subEchoWarn := by decide

theorem tsTouch_ne_subEchoOk : tsTouch ≠ subEchoOk := by decide

theorem tsTouch_ne_subEchoElse : tsTouch ≠ subEchoElse := by decide

theorem tsRm_ne_ytdlpTra (pl : Bool) (out url : String) : tsRm ≠ ytdlpTra pl out url :=
  str_ne_of_head _ _ (by simp [ytdlpTra, tsRm, String.data_append])

theorem tsRm_ne_forTra (out : String) : tsRm ≠ forTra out :=
  str_ne_of_head _ _ (by simp [forTra, tsRm, String.data_append])

theorem tsRm_ne_ytdlpSub (pl : Bool) (out url : String) : tsRm ≠ ytdlpSub pl out url :=
  str_ne_of_head _ _ (by simp [ytdlpSub, tsRm, String.data_append])

theorem tsRm_ne_forSub (out : String) : tsRm ≠ forSub out :=
  str_ne_of_head _ _ (by simp [forSub, tsRm, String.data_append])

theorem tsRm_ne_ytdlpWav (pl : Bool) (out url : String) : tsRm ≠ ytdlpWav pl out url :=
  str_ne_of_head _ _ (by simp [ytdlpWav, tsRm, String.data_append])

theorem tsRm_ne_forWav (out : String) : tsRm ≠ forWav out :=
  str_ne_of_head _ _ (by simp [forWav, tsRm, String.data_append])

theorem tsTouch_ne_forSub (out : String) : tsTouch ≠ forSub out :=
  str_ne_of_head _ _ (by simp [forSub, tsTouch, String.data_append])

theorem tsTouch_ne_ytdlpWav (pl : Bool) (out url : String) : tsTouch ≠ ytdlpWav pl out url :=
  str_ne_of_head _ _ (by simp [ytdlpWav, tsTouch, String.data_append])

theorem tsTouch_ne_forWav (out : String) : tsTouch ≠ forWav out :=
  str_ne_of_head _ _ (by simp [forWav, tsTouch, String.data_append])

/-! ### Which runs execute the sentinel commands -/

theorem runSh_prim_fst (w : String → Bool) (s : String) :
    (runSh w (.prim s)).1 = [s] := rfl

theorem runSh_prim_snd (w : String → Bool) (s : String) :
    (runSh w (.prim s)).2 = w s := rfl

theorem mem_runSh_prim (w : String → Bool) (s x : String) :
    x ∈ (runSh w (.prim s)).1 ↔ x = s := by
  simp [runSh]

theorem mem_runSh_seq (w : String → Bool) (sep : String) (a b : Sh) (x : String) :
    x ∈ (runSh w (.seqS sep a b)).1 ↔ x ∈ (runSh w a).1 ∨ x ∈ (runSh w b).1 := by
  simp [runSh]

theorem mem_runSh_and (w : String → Bool) (sep : String) (a b : Sh) (x : String) :
    x ∈ (runSh w (.andS sep a b)).1 ↔
      x ∈ (runSh w a).1 ∨ ((runSh w a).2 = true ∧ x ∈ (runSh w b).1) := by
  cases h : (runSh w a).2 <;> simp [runSh, h]

theorem mem_runSh_ite (w : String → Bool) (pre m1 m2 post : String) (c t e : Sh)
    (x : String) :
    x ∈ (runSh w (.iteS pre m1 m2 post c t e)).1 ↔
      x ∈ (runSh w c).1 ∨ ((runSh w c).2 = true ∧ x ∈ (runSh w t).1) ∨
        ((runSh w c).2 = false ∧ x ∈ (runSh w e).1) := by
  cases h : (runSh w c).2 <;> simp [runSh, h]

theorem runSh_and_snd (w : String → Bool) (sep : String) (a b : Sh) :
    (runSh w (.andS sep a b)).2 = ((runSh w a).2 && (runSh w b).2) := by
  cases h : (runSh w a).2 <;> simp [runSh, h]

theorem rm_notin_subIf (w : String → Bool) (pl : Bool) (out url : String) :
    tsRm ∉ (runSh w (subIf pl out url)).1 := by
  simp only [subIf, mem_runSh_ite, mem_runSh_and, mem_runSh_prim]
  simp [tsRm_ne_subCond, tsRm_ne_subEchoWarn, tsRm_ne_ytdlpWav pl out url,
    tsRm_ne_forWav out, tsRm_ne_subEchoOk, tsRm_ne_subEchoElse]

theorem touch_notin_subIf (w : String → Bool) (pl : Bool) (out url : String) :
    tsTouch ∉ (runSh w (subIf pl out url)).1 := by
  simp only [subIf, mem_runSh_ite, mem_runSh_and, mem_runSh_prim]
  simp [tsTouch_ne_subCond, tsTouch_ne_subEchoWarn, tsTouch_ne_ytdlpWav pl out url,
    tsTouch_ne_forWav out, tsTouch_ne_subEchoOk, tsTouch_ne_subEchoElse]

theorem transcribe_run (w : String → Bool) (pl : Bool) (out url : String) :
    (tsTouch ∈ (runSh w (transcribeScript pl out url)).1 ↔ w tsAssign = true)
    ∧ (tsRm ∈ (runSh w (transcribeScript pl out url)).1 ↔
        w tsAssign = true ∧ w tsTouch = true ∧ w traEcho1 = true ∧
        w (ytdlpTra pl out url) = true ∧ w (forTra out) = true ∧ w traEcho2 = true) := by
  constructor
  · simp only [transcribeScript, mem_runSh_and, mem_runSh_prim, runSh_prim_snd]
    simp [tsTouch_ne_tsAssign]
  · simp only [transcribeScript, mem_runSh_and, mem_runSh_prim, runSh_prim_snd]
    simp [tsRm_ne_tsAssign, tsRm_ne_tsTouch, tsRm_ne_traEcho1,
      tsRm_ne_ytdlpTra pl out url, tsRm_ne_forTra out, tsRm_ne_traEcho2]

theorem subtitles_run (w : String → Bool) (pl : Bool) (out url : String) :
    (tsTouch ∈ (runSh w (subtitlesScript pl out url)).1 ↔ w tsAssign = true)
    ∧ (tsRm ∈ (runSh w (subtitlesScript pl out url)).1 ↔
        (runSh w (subIf pl out url)).2 = true) := by
  have hrm := rm_notin_subIf w pl out url
  have htc := touch_notin_subIf w pl out url
  constructor
  · simp only [subtitlesScript, mem_runSh_seq, mem_runSh_and, mem_runSh_prim,
      runSh_prim_snd]
    simp [tsTouch_ne_tsAssign, tsTouch_ne_forSub out, tsTouch_ne_tsRm, htc]
  · simp only [subtitlesScript, mem_runSh_seq, mem_runSh_and, mem_runSh_prim,
      runSh_prim_snd]
    simp [tsRm_ne_tsAssign, tsRm_ne_tsTouch, tsRm_ne_ytdlpSub pl out url,
      tsRm_ne_subEcho1, tsRm_ne_found, tsRm_ne_forSub out, hrm]

/-! ### Occurrence combinators for rendered scripts -/

theorem occursStr_self (u : String) : occursStr u u :=
  ⟨"", "", by apply String.ext; simp⟩

theorem occursStr_of_left (u a b : String) (h : occursStr u a) : occursStr u (a ++ b) := by
  obtain ⟨x, y, rfl⟩ := h
  exact ⟨x, y ++ b, by apply String.ext; simp⟩

theorem occursStr_of_right (u a b : String) (h : occursStr u b) : occursStr u (a ++ b) := by
  obtain ⟨x, y, rfl⟩ := h
  exact ⟨a ++ x, y, by apply String.ext; simp⟩

/-! ### Claims C1, C2 and C4 -/

theorem validationState_supported (url : String)
    (hsup : youtubeTest url = true ∨ bilibiliTest url = true) (hurl : url ≠ "") :
    validationState url = some true := by
  unfold validationState
  rw [if_neg hurl]
  rcases hsup with h | h <;> simp [h]

theorem supported_ne_empty (url : String)
    (hsup : youtubeTest url = true ∨ bilibiliTest url = true) : url ≠ "" := by
  intro h
  exact (supported_url_facts url hsup).1 (by rw [h])

/-- C1, counterexample to the claim as stated: in `video` mode the generated
command is not a single line (it contains newline characters), and with an
output path that contains the url the `audio` command contains the url twice,
not exactly once. -/
theorem claim_c1_counterexample :
    ('\n' ∈ (generatedCommand "https://youtu.be/zq" DownloadType.video "/tmp/out"
        (validationState "https://youtu.be/zq") (playlistTest "https://youtu.be/zq")).data)
    ∧ countOcc "https://youtu.be/zq".data
        (generatedCommand "https://youtu.be/zq" DownloadType.audio "https://youtu.be/zq"
          (validationState "https://youtu.be/zq") (playlistTest "https://youtu.be/zq")).data = 2 := by
  constructor
  · rw [show generatedCommand "https://youtu.be/zq" DownloadType.video "/tmp/out"
        (validationState "https://youtu.be/zq") (playlistTest "https://youtu.be/zq") =
        videoCase false "/tmp/out" "https://youtu.be/zq" from rfl]
    rw [video_flat]
    exact List.mem_append.2 (Or.inl (by decide))
  · decide

/-- C1 (amended): for a supported url containing no double quote whose text
occurs neither in the part of the command preceding its interpolation nor
(for video) in the part following it, and an output path without newlines,
the audio command is a single line containing the url exactly once wrapped in
double quotes; the video command also contains the url exactly once wrapped
in double quotes, but spans several lines. -/
theorem claim_c1 (url out : String) (pl : Bool)
    (hsup : youtubeTest url = true ∨ bilibiliTest url = true)
    (hq : '"' ∉ url.data)
    (hnl : '\n' ∉ out.data)
    (hpreA : countOcc url.data (audioPre pl out).data = 0)
    (hpreV : countOcc url.data (videoPre pl out).data = 0)
    (hsufV : countOcc url.data (videoSuf out).data = 0) :
    ('\n' ∉ (generatedCommand url DownloadType.audio out (validationState url) pl).data)
    ∧ countOcc url.data
        (generatedCommand url DownloadType.audio out (validationState url) pl).data = 1
    ∧ occursStr ("\"" ++ url ++ "\"")
        (generatedCommand url DownloadType.audio out (validationState url) pl)
    ∧ countOcc url.data
        (generatedCommand url DownloadType.video out (validationState url) pl).data = 1
    ∧ occursStr ("\"" ++ url ++ "\"")
        (generatedCommand url DownloadType.video out (validationState url) pl)
    ∧ '\n' ∈ (generatedCommand url DownloadType.video out (validationState url) pl).data := by
  obtain ⟨hne, hunl⟩ := supported_url_facts url hsup
  have hurl : url ≠ "" := supported_ne_empty url hsup
  have hvs : validationState url = some true := validationState_supported url hsup hurl
  have hA : generatedCommand url DownloadType.audio out (validationState url) pl =
      audioCase pl out url := by
    rw [hvs]; exact generatedCommand_pos url DownloadType.audio out pl hurl
  have hV : generatedCommand url DownloadType.video out (validationState url) pl =
      videoCase pl out url := by
    rw [hvs]; exact generatedCommand_pos url DownloadType.video out pl hurl
  rw [hA, hV]
  refine ⟨?_, ?_, ?_, ?_, ?_, ?_⟩
  · rw [audio_flat]
    intro hmem
    simp only [List.mem_append, List.mem_cons] at hmem
    rcases hmem with h | h
    · revert h; decide
    rcases h with h | h
    · simp at h
    rcases h with h | h
    · revert h; cases pl <;> decide
    rcases h with h | h
    · simp at h
    rcases h with h | h
    · revert h; decide
    rcases h with h | h
    · simp at h
    rcases h with h | h
    · revert h; decide
    rcases h with h | h
    · simp at h
    rcases h with h | h
    · exact hnl h
    rcases h with h | h
    · simp at h
    rcases h with h | h
    · revert h; decide
    rcases h with h | h
    · simp at h
    rcases h with h | h
    · revert h; decide
    rcases h with h | h
    · simp at h
    rcases h with h | h
    · exact hunl h
    · revert h; decide
  · rw [audio_coarse, countOcc_split url.data '"' hne hq, countOcc_split url.data '"' hne hq,
      countOcc_self url.data hne, hpreA]
    simp [countOcc]
  · refine ⟨audioPre pl out, "", String.ext ?_⟩
    rw [audio_coarse]
    simp [String.data_append]
  · rw [video_coarse, countOcc_split url.data '"' hne hq, countOcc_split url.data '"' hne hq,
      countOcc_self url.data hne, hpreV, hsufV]
  · refine ⟨videoPre pl out, videoSuf out, String.ext ?_⟩
    rw [video_coarse]
    simp [String.data_append]
  · rw [video_flat]
    exact List.mem_append.2 (Or.inl (by decide))

/-- C1, witness. -/
theorem claim_c1_witness :
    ('\n' ∉ (generatedCommand "https://youtu.be/zq" DownloadType.audio "/tmp/out"
        (validationState "https://youtu.be/zq") false).data)
    ∧ countOcc "https://youtu.be/zq".data
        (generatedCommand "https://youtu.be/zq" DownloadType.audio "/tmp/out"
          (validationState "https://youtu.be/zq") false).data = 1
    ∧ occursStr ("\"" ++ "https://youtu.be/zq" ++ "\"")
        (generatedCommand "https://youtu.be/zq" DownloadType.audio "/tmp/out"
          (validationState "https://youtu.be/zq") false)
    ∧ countOcc "https://youtu.be/zq".data
        (generatedCommand "https://youtu.be/zq" DownloadType.video "/tmp/out"
          (validationState "https://youtu.be/zq") false).data = 1
    ∧ occursStr ("\"" ++ "https://youtu.be/zq" ++ "\"")
        (generatedCommand "https://youtu.be/zq" DownloadType.video "/tmp/out"
          (validationState "https://youtu.be/zq") false)
    ∧ '\n' ∈ (generatedCommand "https://youtu.be/zq" DownloadType.video "/tmp/out"
        (validationState "https://youtu.be/zq") false).data :=
  claim_c1 "https://youtu.be/zq" "/tmp/out" false (Or.inl (by decide)) (by decide) (by decide)
    (by decide)
    (countOcc_zero_of_hasSub _ _ (by decide) (by decide))
    (countOcc_zero_of_hasSub _ _ (by decide) (by decide))

/-- C2, counterexample to the claim as stated: a supported url whose path
contains the text `--no-playlist` and whose query selects a playlist; the
generated command then contains both `--yes-playlist` and `--no-playlist`. -/
theorem claim_c2_counterexample :
    playlistTest "https://youtu.be/--no-playlist?list=x" = true
    ∧ occursStr "--yes-playlist"
        (generatedCommand "https://youtu.be/--no-playlist?list=x" DownloadType.audio "/tmp/out"
          (validationState "https://youtu.be/--no-playlist?list=x")
          (playlistTest "https://youtu.be/--no-playlist?list=x"))
    ∧ occursStr "--no-playlist"
        (generatedCommand "https://youtu.be/--no-playlist?list=x" DownloadType.audio "/tmp/out"
          (validationState "https://youtu.be/--no-playlist?list=x")
          (playlistTest "https://youtu.be/--no-playlist?list=x")) :=
  ⟨by decide, occursStr_of_count _ _ (by decide) (by decide),
    occursStr_of_count _ _ (by decide) (by decide)⟩

/-- C2 (amended): the playlist test holds iff the url carries a `list` query
parameter with a non-empty value; and for a supported url, provided neither
the url nor the output path contains the text of either playlist flag, the
generated command of every mode contains `--yes-playlist` and not
`--no-playlist` when the playlist test is true, and `--no-playlist` and not
`--yes-playlist` when it is false. -/
theorem claim_c2 (url out : String) (ty : DownloadType)
    (hsup : youtubeTest url = true ∨ bilibiliTest url = true)
    (hyU : countOcc "--yes-playlist".data url.data = 0)
    (hnU : countOcc "--no-playlist".data url.data = 0)
    (hyO : countOcc "--yes-playlist".data out.data = 0)
    (hnO : countOcc "--no-playlist".data out.data = 0) :
    (playlistTest url = true ↔ HasListShape url.data)
    ∧ (playlistTest url = true →
        occursStr "--yes-playlist"
          (generatedCommand url ty out (validationState url) (playlistTest url))
        ∧ ¬ occursStr "--no-playlist"
          (generatedCommand url ty out (validationState url) (playlistTest url)))
    ∧ (playlistTest url = false →
        occursStr "--no-playlist"
          (generatedCommand url ty out (validationState url) (playlistTest url))
        ∧ ¬ occursStr "--yes-playlist"
          (generatedCommand url ty out (validationState url) (playlistTest url))) := by
  have hurl : url ≠ "" := supported_ne_empty url hsup
  have hvs : validationState url = some true := validationState_supported url hsup hurl
  refine ⟨playlistTest_iff url, ?_, ?_⟩
  · intro hpl
    rw [hvs, hpl]
    cases ty with
    | video =>
      rw [show generatedCommand url DownloadType.video out (some true) true =
          videoCase true out url from generatedCommand_pos url DownloadType.video out true hurl]
      exact ⟨occursStr_of_count _ _ (by decide)
          (by rw [yesCount_video true out url hyU hyO]; decide),
        not_occursStr _ _ (by decide) ((noCount_video true out url hnU hnO).trans (by decide))⟩
    | audio =>
      rw [show generatedCommand url DownloadType.audio out (some true) true =
          audioCase true out url from generatedCommand_pos url DownloadType.audio out true hurl]
      exact ⟨occursStr_of_count _ _ (by decide)
          (by rw [yesCount_audio true out url hyU hyO]; decide),
        not_occursStr _ _ (by decide) ((noCount_audio true out url hnU hnO).trans (by decide))⟩
    | subtitles =>
      rw [show generatedCommand url DownloadType.subtitles out (some true) true =
          subtitlesCase true out url from
            generatedCommand_pos url DownloadType.subtitles out true hurl]
      exact ⟨occursStr_of_count _ _ (by decide)
          (by rw [yesCount_subtitles true out url hyU hyO]; decide),
        not_occursStr _ _ (by decide) ((noCount_subtitles true out url hnU hnO).trans (by decide))⟩
    | transcribe =>
      rw [show generatedCommand url DownloadType.transcribe out (some true) true =
          transcribeCase true out url from
            generatedCommand_pos url DownloadType.transcribe out true hurl]
      exact ⟨occursStr_of_count _ _ (by decide)
          (by rw [yesCount_transcribe true out url hyU hyO]; decide),
        not_occursStr _ _ (by decide) ((noCount_transcribe true out url hnU hnO).trans (by decide))⟩
  · intro hpl
    rw [hvs, hpl]
    cases ty with
    | video =>
      rw [show generatedCommand url DownloadType.video out (some true) false =
          videoCase false out url from generatedCommand_pos url DownloadType.video out false hurl]
      exact ⟨occursStr_of_count _ _ (by decide)
          (by rw [noCount_video false out url hnU hnO]; decide),
        not_occursStr _ _ (by decide) ((yesCount_video false out url hyU hyO).trans (by decide))⟩
    | audio =>
      rw [show generatedCommand url DownloadType.audio out (some true) false =
          audioCase false out url from generatedCommand_pos url DownloadType.audio out false hurl]
      exact ⟨occursStr_of_count _ _ (by decide)
          (by rw [noCount_audio false out url hnU hnO]; decide),
        not_occursStr _ _ (by decide) ((yesCount_audio false out url hyU hyO).trans (by decide))⟩
    | subtitles =>
      rw [show generatedCommand url DownloadType.subtitles out (some true) false =
          subtitlesCase false out url from
            generatedCommand_pos url DownloadType.subtitles out false hurl]
      exact ⟨occursStr_of_count _ _ (by decide)
          (by rw [noCount_subtitles false out url hnU hnO]; decide),
        not_occursStr _ _ (by decide) ((yesCount_subtitles false out url hyU hyO).trans (by decide))⟩
    | transcribe =>
      rw [show generatedCommand url DownloadType.transcribe out (some true) false =
          transcribeCase false out url from
            generatedCommand_pos url DownloadType.transcribe out false hurl]
      exact ⟨occursStr_of_count _ _ (by decide)
          (by rw [noCount_transcribe false out url hnU hnO]; decide),
        not_occursStr _ _ (by decide) ((yesCount_transcribe false out url hyU hyO).trans (by decide))⟩

/-- C2, witness. -/
theorem claim_c2_witness :
    occursStr "--yes-playlist"
      (generatedCommand "https://youtu.be/zq?list=x" DownloadType.video "/tmp/out"
        (validationState "https://youtu.be/zq?list=x") (playlistTest "https://youtu.be/zq?list=x"))
    ∧ ¬ occursStr "--no-playlist"
      (generatedCommand "https://youtu.be/zq?list=x" DownloadType.video "/tmp/out"
        (validationState "https://youtu.be/zq?list=x")
        (playlistTest "https://youtu.be/zq?list=x")) :=
  (claim_c2 "https://youtu.be/zq?list=x" "/tmp/out" DownloadType.video (Or.inl (by decide))
    (by decide) (by decide) (by decide) (by decide)).2.1 (by decide)

/-- C4, counterexample to the claim as stated: for the empty url the
validation state is `null` (no value), not `false`. -/
theorem claim_c4_counterexample :
    validationState "" = none ∧ validationState "" ≠ some false := by
  decide

/-- C4 (amended): for the empty url the validation state is `null` and the
generated command is empty; for a non-empty url matching neither the YouTube
nor the Bilibili pattern the validation state is `false` and the generated
command is empty; for a url matching one of the two patterns the validation
state is `true`. -/
theorem claim_c4 (url out : String) (ty : DownloadType) (pl : Bool) :
    (url = "" → validationState url = none
      ∧ generatedCommand url ty out (validationState url) pl = "")
    ∧ (url ≠ "" → ¬ YtShape url.data → ¬ BiliShape url.data →
        validationState url = some false
        ∧ generatedCommand url ty out (validationState url) pl = "")
    ∧ (YtShape url.data ∨ BiliShape url.data → validationState url = some true) := by
  refine ⟨?_, ?_, ?_⟩
  · intro h
    subst h
    refine ⟨rfl, generatedCommand_empty _ ty out _ pl (Or.inr rfl)⟩
  · intro hne hY hB
    have hyt : youtubeTest url = false := by
      cases h : youtubeTest url with
      | false => rfl
      | true => exact absurd ((youtubeTest_iff url).mp h) hY
    have hbt : bilibiliTest url = false := by
      cases h : bilibiliTest url with
      | false => rfl
      | true => exact absurd ((bilibiliTest_iff url).mp h) hB
    have hvs : validationState url = some false := by
      unfold validationState
      rw [if_neg hne, hyt, hbt]
      rfl
    exact ⟨hvs, generatedCommand_empty _ ty out _ pl (Or.inl (by rw [hvs]; simp))⟩
  · intro h
    have hsup : youtubeTest url = true ∨ bilibiliTest url = true := by
      rcases h with h | h
      · exact Or.inl ((youtubeTest_iff url).mpr h)
      · exact Or.inr ((bilibiliTest_iff url).mpr h)
    exact validationState_supported url hsup (supported_ne_empty url hsup)

/-- C4, witness. -/
theorem claim_c4_witness :
    (validationState "" = none
      ∧ generatedCommand "" DownloadType.video "/tmp/out" (validationState "") false = "")
    ∧ (validationState "x" = some false
      ∧ generatedCommand "x" DownloadType.video "/tmp/out" (validationState "x") false = "")
    ∧ validationState "https://youtu.be/zq" = some true :=
  ⟨(claim_c4 "" "/tmp/out" DownloadType.video false).1 rfl,
   (claim_c4 "x" "/tmp/out" DownloadType.video false).2.1 (by decide)
     (fun h => absurd ((youtubeTest_iff "x").mpr h) (by decide))
     (fun h => absurd ((bilibiliTest_iff "x").mpr h) (by decide)),
   (claim_c4 "https://youtu.be/zq" "/tmp/out" DownloadType.video false).2.2
     (Or.inl ((youtubeTest_iff "https://youtu.be/zq").mp (by decide)))⟩

/-! ### Claim C5 -/

/-- C5 (confirmed): the chunk `[progress] 42.5%` yields 42.5, the chunk
`42.5% of 10MiB` yields 42.5 through the fallback, and `no numbers here`
yields nothing; in general the emitted value is the leftmost match of the
primary `[progress]` pattern when one exists, otherwise the leftmost match
of the bare-percentage pattern, and nothing is emitted exactly when no
position of the chunk matches the bare-percentage pattern. -/
theorem claim_c5 (s : String) (q : ℚ) :
    extractProgress "[progress] 42.5%" = some ((85 : ℚ) / 2)
    ∧ extractProgress "42.5% of 10MiB" = some ((85 : ℚ) / 2)
    ∧ extractProgress "no numbers here" = none
    ∧ (extractProgress s = some q ↔
        (∃ n, PrimShapeAt (s.data.drop n) q
          ∧ ∀ m, m < n → ∀ r, ¬ PrimShapeAt (s.data.drop m) r)
        ∨ ((∀ n r, ¬ PrimShapeAt (s.data.drop n) r)
            ∧ ∃ n, NumShapeAt (s.data.drop n) q
              ∧ ∀ m, m < n → ∀ r, ¬ NumShapeAt (s.data.drop m) r))
    ∧ (extractProgress s = none ↔ ∀ n r, ¬ NumShapeAt (s.data.drop n) r) := by
  have hval : ratOf "42".data "5".data = (85 : ℚ) / 2 := by
    unfold ratOf
    rw [(by decide : digitsVal "42".data = 42), (by decide : digitsVal "5".data = 5),
      (by decide : ("5".data).length = 1)]
    norm_num
  have h1 : extractProgress "[progress] 42.5%" = some (ratOf "42".data "5".data) := rfl
  have h2 : extractProgress "42.5% of 10MiB" = some (ratOf "42".data "5".data) := rfl
  refine ⟨by rw [h1, hval], by rw [h2, hval], rfl, ?_, ?_⟩
  · unfold extractProgress
    cases hp : scanFirst primAt s.data with
    | some r =>
      obtain ⟨n, hn, hm⟩ := (scanFirst_some_iff primAt s.data r).1 hp
      constructor
      · intro h
        have h2 : some r = some q := h
        injection h2 with hrq
        subst hrq
        exact Or.inl ⟨n, (primShapeAt_iff _ _).1 hn,
          fun m hlt r2 => ((primAt_none_iff _).1 (hm m hlt)) r2⟩
      · rintro (⟨k, hk, hkm⟩ | ⟨hall, _⟩)
        · have hk2 : primAt (s.data.drop k) = some q := (primShapeAt_iff _ _).2 hk
          rcases Nat.lt_trichotomy n k with hlt | heq | hgt
          · exact absurd ((primShapeAt_iff _ _).1 hn) (hkm n hlt r)
          · subst heq
            rw [hn] at hk2
            exact hk2
          · rw [hm k hgt] at hk2
            exact Option.noConfusion hk2
        · exfalso
          have h2 : scanFirst primAt s.data = none :=
            (scanFirst_none_iff primAt s.data).2 (fun m => (primAt_none_iff _).2 (hall m))
          rw [hp] at h2
          exact Option.noConfusion h2
    | none =>
      have hnone : ∀ m, primAt (s.data.drop m) = none := (scanFirst_none_iff primAt s.data).1 hp
      constructor
      · intro h
        have h2 : scanFirst numPct s.data = some q := h
        obtain ⟨n, hn, hm⟩ := (scanFirst_some_iff numPct s.data q).1 h2
        refine Or.inr ⟨fun m r hr => ?_, ⟨n, (numShapeAt_iff _ _).1 hn,
          fun m hlt r => ((numPct_none_iff _).1 (hm m hlt)) r⟩⟩
        have hx := (primShapeAt_iff _ _).2 hr
        rw [hnone m] at hx
        exact Option.noConfusion hx
      · rintro (⟨k, hk, _⟩ | ⟨_, ⟨k, hk, hkm⟩⟩)
        · exfalso
          have hx := (primShapeAt_iff _ _).2 hk
          rw [hnone k] at hx
          exact Option.noConfusion hx
        · show scanFirst numPct s.data = some q
          exact (scanFirst_some_iff numPct s.data q).2
            ⟨k, (numShapeAt_iff _ _).2 hk, fun m hlt => (numPct_none_iff _).2 (hkm m hlt)⟩
  · unfold extractProgress
    cases hp : scanFirst primAt s.data with
    | some r =>
      obtain ⟨n, hn, _⟩ := (scanFirst_some_iff primAt s.data r).1 hp
      constructor
      · intro h
        have h2 : some r = none := h
        exact absurd h2 (by simp)
      · intro hall
        exfalso
        obtain ⟨m, hm⟩ := primShape_drop_numShape _ r ((primShapeAt_iff _ _).1 hn)
        rw [List.drop_drop] at hm
        exact hall (n + m) r hm
    | none =>
      constructor
      · intro h nn r hr
        have h3 : scanFirst numPct s.data = none := h
        have h4 := (numShapeAt_iff _ _).2 hr
        rw [(scanFirst_none_iff numPct s.data).1 h3 nn] at h4
        exact Option.noConfusion h4
      · intro hall
        show scanFirst numPct s.data = none
        exact (scanFirst_none_iff numPct s.data).2 (fun nn => (numPct_none_iff _).2 (hall nn))

/-! ### Claims C6, C7, C8, C9, C10 -/

/-- C6 (confirmed): a start-download command that does not contain `yt-dlp`
is spawned unmodified; one that does is spawned as the original with the
progress flags substituted for its leftmost occurrence of `yt-dlp`, the
text before and after that occurrence unchanged. -/
theorem claim_c6 (command : String) :
    (strIncludes "yt-dlp" command = false → modifyCommand command = command)
    ∧ (strIncludes "yt-dlp" command = true →
        ∃ a b : String,
          command = a ++ "yt-dlp" ++ b
          ∧ modifyCommand command = a ++ ytdlpWithFlags ++ b
          ∧ ∀ a2 b2 : String, command = a2 ++ "yt-dlp" ++ b2 →
              a.length ≤ a2.length) := by
  constructor
  · intro h
    unfold modifyCommand
    rw [if_neg (by simp [h])]
  · intro h
    obtain ⟨a, b, hl, hr, hmin⟩ :=
      repFirst_spec "yt-dlp".data ytdlpWithFlags.data (by decide) command.data h
    refine ⟨⟨a⟩, ⟨b⟩, ?_, ?_, ?_⟩
    · apply String.ext
      simpa using hl
    · unfold modifyCommand
      rw [if_pos h]
      apply String.ext
      simpa using hr
    · intro a2 b2 heq
      have h3 : command.data = a2.data ++ "yt-dlp".data ++ b2.data := by
        rw [heq]
        simp
      exact hmin a2.data b2.data h3

/-- C6, witness: the flags are inserted at the first `yt-dlp` of a command
that contains it twice, and a command without `yt-dlp` passes through. -/
theorem claim_c6_witness :
    (modifyCommand "echo hi" = "echo hi")
    ∧ ∃ a b : String,
        "x yt-dlp y yt-dlp" = a ++ "yt-dlp" ++ b
        ∧ modifyCommand "x yt-dlp y yt-dlp" = a ++ ytdlpWithFlags ++ b
        ∧ ∀ a2 b2 : String, "x yt-dlp y yt-dlp" = a2 ++ "yt-dlp" ++ b2 →
            a.length ≤ a2.length :=
  ⟨(claim_c6 "echo hi").1 (by decide), (claim_c6 "x yt-dlp y yt-dlp").2 (by decide)⟩

/-- C7 (confirmed): over a run whose process observations end with the
single close event, exactly one `download-complete` is emitted, it is the
last socket event, and it carries `true` iff the exit code is zero. -/
theorem claim_c7 (body : List PEv) (code : Option Int)
    (hbody : ∀ e ∈ body, isClose e = false) :
    (runEvents (body ++ [PEv.close code])).countP isComplete = 1
    ∧ (runEvents (body ++ [PEv.close code])).getLast? =
        some (SEv.complete (decide (code = some 0)))
    ∧ ∀ ok : Bool, SEv.complete ok ∈ runEvents (body ++ [PEv.close code]) →
        (ok = true ↔ code = some 0) := by
  have hsplit : runEvents (body ++ [PEv.close code]) =
      runEvents body ++ [SEv.complete (decide (code = some 0))] := by
    rw [runEvents_append]
    rfl
  have hnc := runEvents_not_complete body hbody
  refine ⟨?_, ?_, ?_⟩
  · rw [hsplit, List.countP_append]
    have h0 : (runEvents body).countP isComplete = 0 :=
      List.countP_eq_zero.2 (fun a ha => by simp [hnc a ha])
    rw [h0]
    rfl
  · rw [hsplit]
    exact List.getLast?_concat _
  · intro ok hok
    rw [hsplit, List.mem_append] at hok
    rcases hok with hok | hok
    · have h2 := hnc _ hok
      simp [isComplete] at h2
    · simp only [List.mem_singleton] at hok
      injection hok with h2
      subst h2
      simp

/-- C7, witness. -/
theorem claim_c7_witness :
    (runEvents ([PEv.out "[progress] 10%", PEv.err "oops"] ++ [PEv.close (some 0)])).countP
        isComplete = 1
    ∧ (runEvents ([PEv.out "[progress] 10%", PEv.err "oops"] ++ [PEv.close (some 0)])).getLast? =
        some (SEv.complete (decide ((some 0 : Option Int) = some 0)))
    ∧ ∀ ok : Bool,
        SEv.complete ok ∈ runEvents ([PEv.out "[progress] 10%", PEv.err "oops"] ++
          [PEv.close (some 0)]) →
        (ok = true ↔ (some 0 : Option Int) = some 0) :=
  claim_c7 [PEv.out "[progress] 10%", PEv.err "oops"] (some 0) (by decide)

/-- C8, counterexample to the claim as stated: the server.ts variant of
POST /api/download has no restricted-environment guard; with the flag set
it still answers 200 and spawns. -/
theorem claim_c8_counterexample :
    (serverDownload true (some "https://youtu.be/x") (some "video") none).status = 200
    ∧ (serverDownload true (some "https://youtu.be/x") (some "video") none).status ≠ 403
    ∧ (serverDownload true (some "https://youtu.be/x") (some "video") none).spawned ≠ none := by
  refine ⟨rfl, by decide, by decide⟩

/-- C8 (amended): a body without a url gets 400 with an error from both
variants; a body with a url gets 403 with an error from the api.ts variant
when the restricted-environment flag is set, and otherwise 200 with
status `started`, the built command and the fixed message, spawning
`bash -c command` without waiting; the server.ts variant answers 200 that
way regardless of the flag. -/
theorem claim_c8 (vercel : Bool) (url ty outPath : Option String) :
    (url = none ∨ url = some "" →
      apiDownload vercel url ty outPath = ⟨400, some "Missing URL", none, none, none, none⟩
      ∧ serverDownload vercel url ty outPath = ⟨400, some "Missing URL", none, none, none, none⟩)
    ∧ (∀ u, url = some u → u ≠ "" → vercel = true →
        apiDownload vercel url ty outPath = ⟨403, some vercelErr, none, none, none, none⟩)
    ∧ (∀ u, url = some u → u ≠ "" → vercel = false →
        apiDownload vercel url ty outPath =
          ⟨200, none, some "started",
            some (apiCommandFor (falsyOr ty "video") u (falsyOr outPath defaultDlPath)),
            some startedMsg,
            some ["bash", "-c",
              apiCommandFor (falsyOr ty "video") u (falsyOr outPath defaultDlPath)]⟩)
    ∧ (∀ u, url = some u → u ≠ "" →
        serverDownload vercel url ty outPath =
          ⟨200, none, some "started",
            some (apiCommandFor (falsyOr ty "video") u (falsyOr outPath defaultDlPath)),
            some startedMsg,
            some ["bash", "-c",
              apiCommandFor (falsyOr ty "video") u (falsyOr outPath defaultDlPath)]⟩) := by
  refine ⟨?_, ?_, ?_, ?_⟩
  · rintro (rfl | rfl) <;> exact ⟨rfl, rfl⟩
  · rintro u rfl hne rfl
    simp [apiDownload, hne]
  · rintro u rfl hne rfl
    simp [apiDownload, hne]
  · rintro u rfl hne
    simp [serverDownload, hne]

/-- C8, witness. -/
theorem claim_c8_witness :
    apiDownload true (some "https://youtu.be/x") (some "video") none =
      ⟨403, some vercelErr, none, none, none, none⟩ :=
  (claim_c8 true (some "https://youtu.be/x") (some "video") none).2.1
    "https://youtu.be/x" rfl (by decide) rfl

/-- C9 (confirmed): after a copy the new entry is first, no other entry
keeps the same url, the history holds at most 10 entries, and when the
previous history already held 10 entries of other urls the oldest one is
dropped and the total stays 10. -/
theorem claim_c9 (item : HItem) (prev : List HItem) (hlen : prev.length ≤ 10) :
    ((addHistory item prev).head? = some item)
    ∧ (∀ it ∈ (addHistory item prev).tail, it.url ≠ item.url)
    ∧ (addHistory item prev).length ≤ 10
    ∧ ((∀ it ∈ prev, it.url ≠ item.url) → prev.length = 10 →
        addHistory item prev = item :: prev.take 9
        ∧ (addHistory item prev).length = 10) := by
  have hform : addHistory item prev =
      item :: (prev.filter (fun it => it.url != item.url)).take 9 := by
    unfold addHistory
    rfl
  refine ⟨by rw [hform]; rfl, ?_, ?_, ?_⟩
  · intro it hit
    rw [hform] at hit
    simp only [List.tail_cons] at hit
    have h2 := List.mem_of_mem_take hit
    have h3 := List.of_mem_filter h2
    simpa using h3
  · unfold addHistory
    exact List.length_take_le _ _
  · intro hall h10
    have hfilter : prev.filter (fun it => it.url != item.url) = prev :=
      List.filter_eq_self.2 (fun a ha => by simpa using hall a ha)
    constructor
    · rw [hform, hfilter]
    · rw [hform, hfilter]
      simp [List.length_take, h10]

/-- C9, witness: a 10-entry history of distinct urls plus a copy of a new
url: the oldest entry is dropped and the total stays 10. -/
theorem claim_c9_witness :
    addHistory ⟨"i", "u", "t", "video", "c", 0⟩
      [⟨"1", "a", "t", "video", "c", 0⟩, ⟨"2", "b", "t", "video", "c", 0⟩,
       ⟨"3", "d", "t", "video", "c", 0⟩, ⟨"4", "e", "t", "video", "c", 0⟩,
       ⟨"5", "f", "t", "video", "c", 0⟩, ⟨"6", "g", "t", "video", "c", 0⟩,
       ⟨"7", "h", "t", "video", "c", 0⟩, ⟨"8", "j", "t", "video", "c", 0⟩,
       ⟨"9", "k", "t", "video", "c", 0⟩, ⟨"10", "m", "t", "video", "c", 0⟩] =
      (⟨"i", "u", "t", "video", "c", 0⟩ : HItem) ::
        ([⟨"1", "a", "t", "video", "c", 0⟩, ⟨"2", "b", "t", "video", "c", 0⟩,
       ⟨"3", "d", "t", "video", "c", 0⟩, ⟨"4", "e", "t", "video", "c", 0⟩,
       ⟨"5", "f", "t", "video", "c", 0⟩, ⟨"6", "g", "t", "video", "c", 0⟩,
       ⟨"7", "h", "t", "video", "c", 0⟩, ⟨"8", "j", "t", "video", "c", 0⟩,
       ⟨"9", "k", "t", "video", "c", 0⟩, ⟨"10", "m", "t", "video", "c", 0⟩] : List HItem).take 9
    ∧ (addHistory ⟨"i", "u", "t", "video", "c", 0⟩
      [⟨"1", "a", "t", "video", "c", 0⟩, ⟨"2", "b", "t", "video", "c", 0⟩,
       ⟨"3", "d", "t", "video", "c", 0⟩, ⟨"4", "e", "t", "video", "c", 0⟩,
       ⟨"5", "f", "t", "video", "c", 0⟩, ⟨"6", "g", "t", "video", "c", 0⟩,
       ⟨"7", "h", "t", "video", "c", 0⟩, ⟨"8", "j", "t", "video", "c", 0⟩,
       ⟨"9", "k", "t", "video", "c", 0⟩, ⟨"10", "m", "t", "video", "c", 0⟩]).length = 10 :=
  (claim_c9 ⟨"i", "u", "t", "video", "c", 0⟩
      [⟨"1", "a", "t", "video", "c", 0⟩, ⟨"2", "b", "t", "video", "c", 0⟩,
       ⟨"3", "d", "t", "video", "c", 0⟩, ⟨"4", "e", "t", "video", "c", 0⟩,
       ⟨"5", "f", "t", "video", "c", 0⟩, ⟨"6", "g", "t", "video", "c", 0⟩,
       ⟨"7", "h", "t", "video", "c", 0⟩, ⟨"8", "j", "t", "video", "c", 0⟩,
       ⟨"9", "k", "t", "video", "c", 0⟩, ⟨"10", "m", "t", "video", "c", 0⟩]
      (by decide)).2.2.2 (by decide) rfl

/-- C10 (confirmed): a request with a url and a provided type that is none
of `video`, `audio`, `subtitle` (the UI's `subtitles` and `transcribe`
among them) gets 200 with status `started` and an empty command, and a
shell is spawned on the empty command, from both endpoint variants. -/
theorem claim_c10 (vercel : Bool) (outPath : Option String) (u t : String)
    (hu : u ≠ "") (htv : t ≠ "video") (hta : t ≠ "audio") (hts : t ≠ "subtitle")
    (htne : t ≠ "") (hv : vercel = false) :
    apiDownload vercel (some u) (some t) outPath =
      ⟨200, none, some "started", some "", some startedMsg, some ["bash", "-c", ""]⟩
    ∧ serverDownload vercel (some u) (some t) outPath =
      ⟨200, none, some "started", some "", some startedMsg, some ["bash", "-c", ""]⟩ := by
  subst hv
  have hty : falsyOr (some t) "video" = t := by
    simp [falsyOr, htne]
  have hcmd : apiCommandFor (falsyOr (some t) "video") u (falsyOr outPath defaultDlPath) = "" := by
    rw [hty]
    simp [apiCommandFor, htv, hta, hts]
  constructor
  · simp [apiDownload, hu, hcmd]
  · simp [serverDownload, hu, hcmd]

/-- C10, witness: a `transcribe` request. -/
theorem claim_c10_witness :
    apiDownload false (some "https://youtu.be/x") (some "transcribe") none =
      ⟨200, none, some "started", some "", some startedMsg, some ["bash", "-c", ""]⟩
    ∧ serverDownload false (some "https://youtu.be/x") (some "transcribe") none =
      ⟨200, none, some "started", some "", some startedMsg, some ["bash", "-c", ""]⟩ :=
  claim_c10 false none "https://youtu.be/x" "transcribe" (by decide) (by decide) (by decide)
    (by decide) (by decide) rfl

/-! ### Claim C3 -/

/-- C3, counterexample to the claim as stated: under an oracle that fails
exactly the transcribe template's yt-dlp invocation (a failing download),
the run executes the sentinel creation but never reaches the sentinel
removal: the removal is not unconditional and does not run on the error
branch. -/
theorem claim_c3_counterexample :
    (tsTouch ∈ (runSh (fun s => !(s == ytdlpTra false "/tmp/out" "https://youtu.be/zq"))
        (transcribeScript false "/tmp/out" "https://youtu.be/zq")).1)
    ∧ tsRm ∉ (runSh (fun s => !(s == ytdlpTra false "/tmp/out" "https://youtu.be/zq"))
        (transcribeScript false "/tmp/out" "https://youtu.be/zq")).1 := by
  decide

/-- C3 (amended): for a supported url, both the subtitles and the
transcribe command contain the sentinel creation `touch "$TS_FILE"` and
the removal `rm "$TS_FILE"` as text, and the two commands are exactly the
renderings of their shell parses; but the removal is conditional: in the
transcribe run it executes iff every one of the six preceding simple
commands succeeds, and in the subtitles run it executes iff the final
`if` (the Whisper-fallback branch or the success message) exits
successfully, while the creation executes whenever the initial assignment
does. -/
theorem claim_c3 (w : String → Bool) (pl : Bool) (out url : String)
    (hsup : youtubeTest url = true ∨ bilibiliTest url = true) :
    occursStr tsTouch (generatedCommand url DownloadType.subtitles out (validationState url) pl)
    ∧ occursStr tsRm (generatedCommand url DownloadType.subtitles out (validationState url) pl)
    ∧ occursStr tsTouch
        (generatedCommand url DownloadType.transcribe out (validationState url) pl)
    ∧ occursStr tsRm (generatedCommand url DownloadType.transcribe out (validationState url) pl)
    ∧ renderSh (subtitlesScript pl out url) =
        generatedCommand url DownloadType.subtitles out (validationState url) pl
    ∧ renderSh (transcribeScript pl out url) =
        generatedCommand url DownloadType.transcribe out (validationState url) pl
    ∧ (tsTouch ∈ (runSh w (transcribeScript pl out url)).1 ↔ w tsAssign = true)
    ∧ (tsRm ∈ (runSh w (transcribeScript pl out url)).1 ↔
        w tsAssign = true ∧ w tsTouch = true ∧ w traEcho1 = true ∧
        w (ytdlpTra pl out url) = true ∧ w (forTra out) = true ∧ w traEcho2 = true)
    ∧ (tsTouch ∈ (runSh w (subtitlesScript pl out url)).1 ↔ w tsAssign = true)
    ∧ (tsRm ∈ (runSh w (subtitlesScript pl out url)).1 ↔
        (runSh w (subIf pl out url)).2 = true) := by
  have hurl : url ≠ "" := supported_ne_empty url hsup
  have hvs : validationState url = some true := validationState_supported url hsup hurl
  have hS : generatedCommand url DownloadType.subtitles out (validationState url) pl =
      subtitlesCase pl out url := by
    rw [hvs]; exact generatedCommand_pos url DownloadType.subtitles out pl hurl
  have hT : generatedCommand url DownloadType.transcribe out (validationState url) pl =
      transcribeCase pl out url := by
    rw [hvs]; exact generatedCommand_pos url DownloadType.transcribe out pl hurl
  obtain ⟨hT1, hT2⟩ := transcribe_run w pl out url
  obtain ⟨hS1, hS2⟩ := subtitles_run w pl out url
  refine ⟨?_, ?_, ?_, ?_, by rw [hS, render_subtitles], by rw [hT, render_transcribe],
    hT1, hT2, hS1, hS2⟩
  · rw [hS, ← render_subtitles]
    simp only [subtitlesScript, subIf, renderSh]
    exact occursStr_of_left _ _ _ (occursStr_of_left _ _ _ (occursStr_of_right _ _ _
      (occursStr_of_left _ _ _ (occursStr_of_left _ _ _ (occursStr_self _)))))
  · rw [hS, ← render_subtitles]
    simp only [subtitlesScript, subIf, renderSh]
    exact occursStr_of_right _ _ _ (occursStr_of_right _ _ _ (occursStr_of_right _ _ _
      (occursStr_self _)))
  · rw [hT, ← render_transcribe]
    simp only [transcribeScript, renderSh]
    exact occursStr_of_right _ _ _ (occursStr_of_left _ _ _ (occursStr_of_left _ _ _
      (occursStr_self _)))
  · rw [hT, ← render_transcribe]
    simp only [transcribeScript, renderSh]
    exact occursStr_of_right _ _ _ (occursStr_of_right _ _ _ (occursStr_of_right _ _ _
      (occursStr_of_right _ _ _ (occursStr_of_right _ _ _ (occursStr_of_right _ _ _
        (occursStr_self _))))))

/-- C3, witness: a concrete supported url under the all-success oracle. -/
theorem claim_c3_witness :
    occursStr tsTouch (generatedCommand "https://youtu.be/zq" DownloadType.subtitles "/tmp/out"
      (validationState "https://youtu.be/zq") false)
    ∧ occursStr tsRm (generatedCommand "https://youtu.be/zq" DownloadType.subtitles "/tmp/out"
      (validationState "https://youtu.be/zq") false)
    ∧ occursStr tsTouch (generatedCommand "https://youtu.be/zq" DownloadType.transcribe
      "/tmp/out" (validationState "https://youtu.be/zq") false)
    ∧ occursStr tsRm (generatedCommand "https://youtu.be/zq" DownloadType.transcribe "/tmp/out"
      (validationState "https://youtu.be/zq") false)
    ∧ renderSh (subtitlesScript false "/tmp/out" "https://youtu.be/zq") =
        generatedCommand "https://youtu.be/zq" DownloadType.subtitles "/tmp/out"
          (validationState "https://youtu.be/zq") false
    ∧ renderSh (transcribeScript false "/tmp/out" "https://youtu.be/zq") =
        generatedCommand "https://youtu.be/zq" DownloadType.transcribe "/tmp/out"
          (validationState "https://youtu.be/zq") false
    ∧ (tsTouch ∈ (runSh (fun _ => true)
          (transcribeScript false "/tmp/out" "https://youtu.be/zq")).1 ↔
        (fun _ => true) tsAssign = true)
    ∧ (tsRm ∈ (runSh (fun _ => true)
          (transcribeScript false "/tmp/out" "https://youtu.be/zq")).1 ↔
        (fun _ => true) tsAssign = true ∧ (fun _ => true) tsTouch = true ∧
        (fun _ => true) traEcho1 = true ∧
        (fun _ => true) (ytdlpTra false "/tmp/out" "https://youtu.be/zq") = true ∧
        (fun _ => true) (forTra "/tmp/out") = true ∧ (fun _ => true) traEcho2 = true)
    ∧ (tsTouch ∈ (runSh (fun _ => true)
          (subtitlesScript false "/tmp/out" "https://youtu.be/zq")).1 ↔
        (fun _ => true) tsAssign = true)
    ∧ (tsRm ∈ (runSh (fun _ => true)
          (subtitlesScript false "/tmp/out" "https://youtu.be/zq")).1 ↔
        (runSh (fun _ => true) (subIf false "/tmp/out" "https://youtu.be/zq")).2 = true) :=
  claim_c3 (fun _ => true) false "/tmp/out" "https://youtu.be/zq" (Or.inl (by decide))

